import Mathlib

/-!
Verification development for the Daily-Tracker adaptive scheduling engine
(`src/lib/googleCalendar.ts`, "Rhythm Planner", Phase 3 Complete variant,
with the Phase 3 Partial variant embedded where a claim refers to it).

Modelling conventions:
* Instants are natural numbers of milliseconds since the epoch, read on a
  zero-offset (UTC-like) clock: the hour of day of `t` is `t / 3600000 % 24`,
  the minute of hour is `t / 60000 % 60`, and the epoch day index is
  `t / 86400000`.  `Date` mutations (`setMinutes`, `setHours`, ...) become
  the corresponding arithmetic on these components.
* JavaScript fractional-minute quantities (`ms / 60000` as a float) are kept
  in milliseconds; a comparison `ms / 60000 > threshold` is translated to the
  exactly equivalent integer comparison `ms > threshold * 60000`, and
  `Math.round(ms / 60000)` to `(ms + 30000) / 60000` (floor division).
* Emoji prefixes of user-facing strings are dropped; no claim depends on them.
* `end` is a Lean keyword, so the `end` fields/bindings of the source are
  named `stop` here.
-/

namespace DailyTracker

/-- Hour of day of an epoch-millisecond instant (zero-offset clock). -/
def getHours (t : Nat) : Nat := t / 3600000 % 24

/-- Minute of hour of an epoch-millisecond instant. -/
def getMinutes (t : Nat) : Nat := t / 60000 % 60

/-- Midnight of the day containing `t` (what `setHours(0,0,0,0)` yields). -/
def dayFloor (t : Nat) : Nat := t - t % 86400000

/-- `sameDay` from the source: two instants fall on the same calendar day. -/
def sameDay (a b : Nat) : Bool := a / 86400000 == b / 86400000

/-- `timeRangesOverlap` from the source: `start1 < end2 && end1 > start2`. -/
def timeRangesOverlap (start1 end1 start2 end2 : Nat) : Bool :=
  decide (start1 < end2) && decide (end1 > start2)

/-- `CheckIn` (matches App.tsx).  `slot` and `loggedAt` are instants.
`isAnchor` is optional in the source; an absent flag reads as `false`. -/
structure CheckIn where
  id : String
  category : String
  task : String
  waveId : Option String := none
  slot : Nat
  loggedAt : Nat := 0
  note : Option String := none
  done : Bool
  isAnchor : Bool := false
deriving DecidableEq, Repr

/-- `CalendarEvent`: cached mirror of the external calendar's event shape. -/
structure CalendarEvent where
  id : Option String := none
  summary : String
  description : Option String := none
  start : Nat
  stop : Nat
  colorId : Option String := none
deriving DecidableEq, Repr

/-- `TimeSlot`: a candidate interval produced by the Slot Finder. -/
structure TimeSlot where
  start : Nat
  stop : Nat
  available : Bool
  conflictsWith : Option (List String) := none
deriving DecidableEq, Repr

/-- `workingHours` field of the configuration (`{ start, end }`, 24h). -/
structure WorkingHours where
  start : Nat
  stop : Nat
deriving DecidableEq, Repr

/-- `PlannerConfig` from the source (Phase 3 Complete variant). -/
structure PlannerConfig where
  focusBreakThreshold : Nat
  defaultBreakDuration : Nat
  anchorReminderLeadTime : Nat
  autoScheduleEnabled : Bool
  autoScheduleBreaks : Bool
  autoScheduleFocusBlocks : Bool
  requireConfirmation : Bool
  maxActiveSuggestions : Nat
  workingHours : WorkingHours
  minimumEventGap : Nat
  defaultFocusBlockDuration : Nat
  enableFrictionDetection : Bool
  frictionThreshold : Nat
deriving DecidableEq, Repr

/-- `DEFAULT_CONFIG` from the source. -/
def DEFAULT_CONFIG : PlannerConfig where
  focusBreakThreshold := 90
  defaultBreakDuration := 15
  anchorReminderLeadTime := 15
  autoScheduleEnabled := false
  autoScheduleBreaks := false
  autoScheduleFocusBlocks := false
  requireConfirmation := true
  maxActiveSuggestions := 5
  workingHours := { start := 9, stop := 18 }
  minimumEventGap := 5
  defaultFocusBlockDuration := 50
  enableFrictionDetection := true
  frictionThreshold := 3

/-- `checkForConflicts` (RhythmPlanner, lines 544-581): overlapping cached
calendar events, followed by synthetic 30-minute events for the overlapping
pending (not-done) check-ins, in source push order.  The source's
`hasConflict` is `≠ []` of this list. -/
def checkForConflicts (events : List CalendarEvent) (checkIns : List CheckIn)
    (start stop : Nat) : List CalendarEvent :=
  (events.filter fun e => timeRangesOverlap start stop e.start e.stop) ++
    ((checkIns.filter fun c =>
        !c.done && timeRangesOverlap start stop c.slot (c.slot + 30 * 60000)).map
      fun c => { id := some c.id, summary := c.task,
                 start := c.slot, stop := c.slot + 30 * 60000 })

/-- `Math.max(...conflictingEvents.map(e => new Date(e.end).getTime()))`. -/
def latestEnd (conflicts : List CalendarEvent) : Nat :=
  conflicts.foldr (fun e acc => max e.stop acc) 0

/-- The rounding prologue of `findNextAvailableSlot`:
`setMinutes(ceil(minutes/5)*5); setSeconds(0); setMilliseconds(0)`. -/
def roundUpTo5Minutes (t : Nat) : Nat :=
  t - t % 3600000 + (getMinutes t + 4) / 5 * 5 * 60000

/-- The `while (searchTime < maxSearchTime)` loop of `findNextAvailableSlot`
(lines 609-637).  The loop body never mutates anything except `searchTime`,
which it strictly increases by at least one millisecond per iteration
(`findSlotLoop_fuel_sufficient`), so running it with `maxSearchTime -
searchTime` units of fuel is exact: the fuel cannot run out before the loop
guard fails, and when fuel and guard run out together both return `none`,
exactly the `return null` after the source loop. -/
def findSlotLoop (cfg : PlannerConfig) (events : List CalendarEvent)
    (checkIns : List CheckIn) (durationMinutes : Nat) (maxSearchTime : Nat) :
    Nat → Nat → Option TimeSlot
  | _, 0 => none
  | searchTime, fuel + 1 =>
    if searchTime < maxSearchTime then
      let slotEnd := searchTime + durationMinutes * 60000
      -- "Don't schedule past working hours" (break, then return null)
      if getHours slotEnd > cfg.workingHours.stop ∨
          (getHours slotEnd = cfg.workingHours.stop ∧ getMinutes slotEnd > 0) then
        none
      else
        let conflicts := checkForConflicts events checkIns searchTime slotEnd
        if conflicts.isEmpty then
          some { start := searchTime, stop := slotEnd, available := true }
        else if conflicts.length > 0 then
          -- move past the conflicting event
          findSlotLoop cfg events checkIns durationMinutes maxSearchTime
            (latestEnd conflicts + cfg.minimumEventGap * 60000) fuel
        else
          -- defensive 15-minute step (unreachable: hasConflict ↔ length > 0)
          findSlotLoop cfg events checkIns durationMinutes maxSearchTime
            (searchTime + 15 * 60000) fuel
    else none

/-- `findNextAvailableSlot` (lines 586-640). -/
def findNextAvailableSlot (cfg : PlannerConfig) (events : List CalendarEvent)
    (checkIns : List CheckIn) (durationMinutes : Nat) (afterTime : Nat) :
    Option TimeSlot :=
  let now := roundUpTo5Minutes afterTime
  let now := if getHours now < cfg.workingHours.start then
      dayFloor now + cfg.workingHours.start * 3600000
    else now
  let maxSearchTime := dayFloor now + cfg.workingHours.stop * 3600000
  findSlotLoop cfg events checkIns durationMinutes maxSearchTime now
    (maxSearchTime - now)

/-- `SuggestionType` from the source (Phase 3 Complete variant). -/
inductive SuggestionType
  | BREAK_NEEDED
  | FOCUS_BLOCK
  | SCHEDULE_ADJUSTMENT
  | REFLECTION_REMINDER
  | ANCHOR_REMINDER
  | FRICTION_WARNING
  | AUTO_SCHEDULED
deriving DecidableEq, Repr

/-- The `'low' | 'medium' | 'high'` priority union. -/
inductive Priority
  | low
  | medium
  | high
deriving DecidableEq, Repr

/-- The `priorityOrder` lookup table of `addSuggestion`'s comparator. -/
def priorityOrder : Priority → Nat
  | .high => 2
  | .medium => 1
  | .low => 0

/-- The action `type` union of a `PlannerSuggestion`. -/
inductive ActionType
  | create_event
  | snooze
  | dismiss
  | navigate
  | auto_scheduled
deriving DecidableEq, Repr

/-- The untyped `payload: any` of a suggestion action, modelled as a record
of every field any construction site writes; absent fields are `none`,
matching the `payload?.field` optional accesses.  `section` is a Lean
keyword, so the navigation payload's `section` field is `sectionName`. -/
structure ActionPayload where
  summary : Option String := none
  description : Option String := none
  start : Option Nat := none
  stop : Option Nat := none
  durationMinutes : Option Nat := none
  colorId : Option String := none
  sectionName : Option String := none
  anchorId : Option String := none
deriving DecidableEq, Repr

/-- The optional `action` member of a `PlannerSuggestion`. -/
structure SuggestionAction where
  type : ActionType
  payload : ActionPayload
deriving DecidableEq, Repr

/-- `PlannerSuggestion`.  `generateId` (wall clock + random suffix) is
modelled by a per-planner counter handed out at creation, so `id` is a
natural number here. -/
structure PlannerSuggestion where
  id : Nat
  type : SuggestionType
  priority : Priority
  title : String
  description : String
  action : Option SuggestionAction := none
  createdAt : Nat
  expiresAt : Option Nat := none
  dismissed : Bool := false
  autoScheduled : Bool := false
  calendarEventId : Option String := none
deriving DecidableEq, Repr

/-- The `s.action?.payload?.anchorId` optional-chain read. -/
def anchorIdOf (s : PlannerSuggestion) : Option String :=
  s.action.bind fun a => a.payload.anchorId

/-- The comparator of `addSuggestion`'s capacity trim (lines 1157-1164):
dismissed entries sort first, then priority descending, then `createdAt`
descending. -/
def compareSuggestions (a b : PlannerSuggestion) : Int :=
  if a.dismissed ≠ b.dismissed then (if a.dismissed then -1 else 1)
  else if a.priority ≠ b.priority then
    (priorityOrder b.priority : Int) - (priorityOrder a.priority : Int)
  else (b.createdAt : Int) - (a.createdAt : Int)

/-- `Array.prototype.sort` with the trim comparator: ECMAScript sorts are
stable, and a stable sort by the consistent comparator `compareSuggestions`
is unique, so the structurally recursive stable `insertionSort` computes
exactly the source's sort. -/
def trimSort (l : List PlannerSuggestion) : List PlannerSuggestion :=
  l.insertionSort fun a b => compareSuggestions a b ≤ 0

/-- The capacity trim of `addSuggestion`: sort and keep the first
`maxActiveSuggestions` entries whenever the list exceeds that bound. -/
def trimSuggestions (maxActive : Nat) (l : List PlannerSuggestion) :
    List PlannerSuggestion :=
  if l.length > maxActive then (trimSort l).take maxActive else l

/-- `addSuggestion` (lines 1145-1167): per-kind dedup (any non-dismissed
suggestion of the same type blocks insertion, except `ANCHOR_REMINDER`),
then push, then the capacity trim. -/
def addSuggestion (cfg : PlannerConfig) (s : PlannerSuggestion)
    (l : List PlannerSuggestion) : List PlannerSuggestion :=
  let existing := l.find? fun t => t.type == s.type && !t.dismissed
  if existing.isSome && s.type != SuggestionType.ANCHOR_REMINDER then l
  else trimSuggestions cfg.maxActiveSuggestions (l ++ [s])

/-- `addSuggestion` of the Phase 3 Partial variant (lines 1786-1803): same
trim, but no dedup guard before the push. -/
def addSuggestionPartialVariant (maxActive : Nat) (s : PlannerSuggestion)
    (l : List PlannerSuggestion) : List PlannerSuggestion :=
  trimSuggestions maxActive (l ++ [s])

/-- `cleanupSuggestions` (lines 1172-1179): drop dismissed entries and
entries whose `expiresAt` lies strictly before `now`. -/
def cleanupSuggestions (now : Nat) (l : List PlannerSuggestion) :
    List PlannerSuggestion :=
  l.filter fun s => !s.dismissed &&
    (match s.expiresAt with
     | some e => !(decide (e < now))
     | none => true)

/-- `dismissSuggestion` on the list: flip `dismissed` on the first
suggestion with the given id (`find` returns the first match). -/
def dismissFirst (suggestionId : Nat) :
    List PlannerSuggestion → List PlannerSuggestion
  | [] => []
  | s :: rest =>
    if s.id = suggestionId then { s with dismissed := true } :: rest
    else s :: dismissFirst suggestionId rest

/-- Modelled from the spec: `RhythmState` is imported from
`rhythmStateEngine`, which is not among the sources.  The spec names the
focused, open and reflective behavioral modes; `OTHER` stands for any
further engine state (the planner only compares against the three named
literals). -/
inductive RhythmState
  | OPEN
  | FOCUS
  | REFLECTIVE
  | OTHER
deriving DecidableEq, Repr

/-- `PlannerPreferences` from the source. -/
structure PlannerPreferences where
  autoScheduleEnabled : Bool
  autoScheduleBreaks : Bool
  autoScheduleFocusBlocks : Bool
  requireConfirmation : Bool
  focusBreakThreshold : Nat
  defaultBreakDuration : Nat
  defaultFocusBlockDuration : Nat
  workingHoursStart : Nat
  workingHoursEnd : Nat
  enableFrictionDetection : Bool
  notificationsEnabled : Bool
deriving DecidableEq, Repr

/-- `DEFAULT_PREFERENCES` from the source. -/
def DEFAULT_PREFERENCES : PlannerPreferences where
  autoScheduleEnabled := false
  autoScheduleBreaks := false
  autoScheduleFocusBlocks := false
  requireConfirmation := true
  focusBreakThreshold := 90
  defaultBreakDuration := 15
  defaultFocusBlockDuration := 50
  workingHoursStart := 9
  workingHoursEnd := 18
  enableFrictionDetection := true
  notificationsEnabled := true

/-- `Partial<PlannerPreferences>`: each field optionally overridden. -/
structure PartialPreferences where
  autoScheduleEnabled : Option Bool := none
  autoScheduleBreaks : Option Bool := none
  autoScheduleFocusBlocks : Option Bool := none
  requireConfirmation : Option Bool := none
  focusBreakThreshold : Option Nat := none
  defaultBreakDuration : Option Nat := none
  defaultFocusBlockDuration : Option Nat := none
  workingHoursStart : Option Nat := none
  workingHoursEnd : Option Nat := none
  enableFrictionDetection : Option Bool := none
  notificationsEnabled : Option Bool := none
deriving DecidableEq, Repr

/-- The `{ ...this.preferences, ...prefs }` spread merge. -/
def mergePreferences (p : PlannerPreferences) (u : PartialPreferences) :
    PlannerPreferences where
  autoScheduleEnabled := u.autoScheduleEnabled.getD p.autoScheduleEnabled
  autoScheduleBreaks := u.autoScheduleBreaks.getD p.autoScheduleBreaks
  autoScheduleFocusBlocks := u.autoScheduleFocusBlocks.getD p.autoScheduleFocusBlocks
  requireConfirmation := u.requireConfirmation.getD p.requireConfirmation
  focusBreakThreshold := u.focusBreakThreshold.getD p.focusBreakThreshold
  defaultBreakDuration := u.defaultBreakDuration.getD p.defaultBreakDuration
  defaultFocusBlockDuration := u.defaultFocusBlockDuration.getD p.defaultFocusBlockDuration
  workingHoursStart := u.workingHoursStart.getD p.workingHoursStart
  workingHoursEnd := u.workingHoursEnd.getD p.workingHoursEnd
  enableFrictionDetection := u.enableFrictionDetection.getD p.enableFrictionDetection
  notificationsEnabled := u.notificationsEnabled.getD p.notificationsEnabled

/-- `syncConfigWithPreferences` (lines 408-421); note that
`anchorReminderLeadTime`, `maxActiveSuggestions`, `minimumEventGap` and
`frictionThreshold` are not preference-backed and keep their config value. -/
def syncConfigWithPreferences (cfg : PlannerConfig) (p : PlannerPreferences) :
    PlannerConfig :=
  { cfg with
    autoScheduleEnabled := p.autoScheduleEnabled
    autoScheduleBreaks := p.autoScheduleBreaks
    autoScheduleFocusBlocks := p.autoScheduleFocusBlocks
    requireConfirmation := p.requireConfirmation
    focusBreakThreshold := p.focusBreakThreshold
    defaultBreakDuration := p.defaultBreakDuration
    defaultFocusBlockDuration := p.defaultFocusBlockDuration
    workingHours := { start := p.workingHoursStart, stop := p.workingHoursEnd }
    enableFrictionDetection := p.enableFrictionDetection }

/-- One audit-sink entry (metadata payloads are dropped; no claim reads
them). -/
structure AuditEntry where
  category : String
  severity : String
  message : String
deriving DecidableEq, Repr

/-- Shorthand for an audit entry. -/
def audit (category severity message : String) : AuditEntry :=
  { category := category, severity := severity, message := message }

/-- Outcome oracle for one `calendarService.createEvent` call:
`success id?` models the promise resolving with a result whose `id` field
is `id?` (`result?.id`); `failure` models a throw or rejection. -/
inductive GatewayResult
  | success (id : Option String)
  | failure
deriving DecidableEq, Repr

/-- The mutable fields of a `RhythmPlanner` instance.  Listener sets are
omitted (notification passes no state back); `waves` is omitted (read-only
display data, never consulted by the planner logic); `nextId` backs the
`generateId` model. -/
structure PlannerState where
  config : PlannerConfig
  preferences : PlannerPreferences
  suggestions : List PlannerSuggestion := []
  checkIns : List CheckIn := []
  currentRhythmState : RhythmState := .OPEN
  lastFocusStart : Option Nat := none
  lastFocusTask : Option String := none
  hasCalendarService : Bool := false
  calendarEvents : List CalendarEvent := []
  autoScheduledEvents : List (Nat × Option String) := []
  auditTrail : List AuditEntry := []
  nextId : Nat := 0
deriving Repr

/-- The constructor: merge the partial config over `DEFAULT_CONFIG` (the
parameter here is the already-merged result), take default preferences, and
sync — so every preference-backed field starts at its default. -/
def RhythmPlanner.init (config : PlannerConfig) : PlannerState where
  config := syncConfigWithPreferences config DEFAULT_PREFERENCES
  preferences := DEFAULT_PREFERENCES
  auditTrail := [audit "SYSTEM_INIT" "info" "Rhythm planner initialized"]

/-- `trigger.match(/Active focus beat: (.+)/)`: the text after the first
occurrence of the marker, if nonempty (only feeds suggestion descriptions). -/
def extractFocusTask (trigger : String) : Option String :=
  match trigger.splitOn "Active focus beat: " with
  | _ :: rest :: _ => if rest.isEmpty then none else some rest
  | _ => none

/-- `Math.round(ms / 60000)` over nonnegative reals, in integers. -/
def roundMinutes (ms : Nat) : Nat := (ms + 30000) / 60000

/-- Stand-in for `toLocaleTimeString` (only feeds description strings). -/
def formatTime (t : Nat) : String :=
  toString (getHours t) ++ ":" ++ toString (getMinutes t)

/-- `ensureBreakAfterFocus` (lines 679-790).  `focusDurationMs` is the
focus duration in milliseconds (the source divides by 60000 into a float;
its comparisons `> focusBreakThreshold` and `> 120` are the integer
comparisons against `threshold * 60000` and `120 * 60000`).  Returns the
updated state and what the source returns. -/
def ensureBreakAfterFocus (focusDurationMs : Nat) (afterTask : Option String)
    (gw : GatewayResult) (now : Nat) (st : PlannerState) :
    PlannerState × Option PlannerSuggestion :=
  match st.suggestions.find? (fun s => s.type == .BREAK_NEEDED && !s.dismissed) with
  | some existingBreak => (st, some existingBreak)
  | none =>
    let breakDuration := st.config.defaultBreakDuration
    match findNextAvailableSlot st.config st.calendarEvents st.checkIns
        breakDuration now with
    | none =>
      ({ st with auditTrail := st.auditTrail ++
          [audit "AI_SUGGESTION" "warning" "Could not find available slot for break"] },
       none)
    | some slot =>
      -- check for conflicts one more time
      let conflicts := checkForConflicts st.calendarEvents st.checkIns slot.start slot.stop
      if !conflicts.isEmpty then
        ({ st with auditTrail := st.auditTrail ++
            [audit "AI_SUGGESTION" "warning" "Break slot has conflicts"] }, none)
      else
        let suggestion : PlannerSuggestion := {
          id := st.nextId
          type := .BREAK_NEEDED
          priority := if focusDurationMs > 120 * 60000 then .high else .medium
          title := "Time for a Break"
          description := "You have been focused for " ++
            toString (roundMinutes focusDurationMs) ++ " minutes. A " ++
            toString breakDuration ++ "-minute break will help maintain your energy."
          action := some {
            type := if st.config.autoScheduleBreaks then .auto_scheduled else .create_event
            payload := {
              summary := some "Rhythm Break"
              description := some (match afterTask with
                | some t => "Recovery break after: " ++ t
                | none => "Auto-scheduled break to recharge after extended focus")
              start := some slot.start
              stop := some slot.stop
              durationMinutes := some breakDuration
              colorId := some "5" } }
          createdAt := now
          expiresAt := some (now + 30 * 60000) }
        let st := { st with nextId := st.nextId + 1 }
        if st.config.autoScheduleBreaks && st.hasCalendarService &&
            !st.config.requireConfirmation then
          match gw with
          | .success resultId =>
            let suggestion := { suggestion with
              autoScheduled := true
              calendarEventId := resultId
              type := .AUTO_SCHEDULED
              title := "Break Auto-Scheduled"
              description := "A " ++ toString breakDuration ++
                "-minute break has been added to your calendar at " ++
                formatTime slot.start ++ "." }
            let st := { st with
              autoScheduledEvents := (suggestion.id, resultId) :: st.autoScheduledEvents
              auditTrail := st.auditTrail ++
                [audit "AUTO_SCHEDULE" "success" "Break auto-scheduled after focus"] }
            ({ st with suggestions := addSuggestion st.config suggestion st.suggestions },
             some suggestion)
          | .failure =>
            let st := { st with auditTrail := st.auditTrail ++
                [audit "ERROR" "error" "Failed to auto-schedule break"] }
            ({ st with suggestions := addSuggestion st.config suggestion st.suggestions },
             some suggestion)
        else
          let st := { st with auditTrail := st.auditTrail ++
              [audit "AI_SUGGESTION" "info" "Break suggested after focus"] }
          ({ st with suggestions := addSuggestion st.config suggestion st.suggestions },
           some suggestion)

/-- `scheduleFocusBlock` (lines 795-878).  `durationMinutes || default`
is a JavaScript falsy-or: an absent or zero argument falls back to the
configured default. -/
def scheduleFocusBlock (taskName : Option String) (durationMinutes : Option Nat)
    (gw : GatewayResult) (now : Nat) (st : PlannerState) :
    PlannerState × Option PlannerSuggestion :=
  let duration := match durationMinutes with
    | some d => if d = 0 then st.config.defaultFocusBlockDuration else d
    | none => st.config.defaultFocusBlockDuration
  match findNextAvailableSlot st.config st.calendarEvents st.checkIns duration now with
  | none =>
    ({ st with auditTrail := st.auditTrail ++
        [audit "AI_SUGGESTION" "warning" "Could not find available slot for focus block"] },
     none)
  | some slot =>
    let title := match taskName with
      | some t => "Focus: " ++ t
      | none => "Focus Block"
    let suggestion : PlannerSuggestion := {
      id := st.nextId
      type := .FOCUS_BLOCK
      priority := .medium
      title := title
      description := toString duration ++ "-minute focus session starting at " ++
        formatTime slot.start ++ "."
      action := some {
        type := if st.config.autoScheduleFocusBlocks then .auto_scheduled else .create_event
        payload := {
          summary := some title
          description := some "Dedicated focus time for deep work"
          start := some slot.start
          stop := some slot.stop
          durationMinutes := some duration
          colorId := some "7" } }
      createdAt := now
      expiresAt := some (now + 2 * 60 * 60000) }
    let st := { st with nextId := st.nextId + 1 }
    if st.config.autoScheduleFocusBlocks && st.hasCalendarService &&
        !st.config.requireConfirmation then
      match gw with
      | .success resultId =>
        let suggestion := { suggestion with
          autoScheduled := true
          calendarEventId := resultId
          type := .AUTO_SCHEDULED
          title := "Focus Block Scheduled"
          description := "A " ++ toString duration ++
            "-minute focus block has been added to your calendar at " ++
            formatTime slot.start ++ "." }
        let st := { st with
          autoScheduledEvents := (suggestion.id, resultId) :: st.autoScheduledEvents
          auditTrail := st.auditTrail ++
            [audit "AUTO_SCHEDULE" "success" "Focus block auto-scheduled"] }
        ({ st with suggestions := addSuggestion st.config suggestion st.suggestions },
         some suggestion)
      | .failure =>
        let st := { st with auditTrail := st.auditTrail ++
            [audit "ERROR" "error" "Failed to auto-schedule focus block"] }
        ({ st with suggestions := addSuggestion st.config suggestion st.suggestions },
         some suggestion)
    else
      ({ st with suggestions := addSuggestion st.config suggestion st.suggestions },
       some suggestion)

/-- `suggestReflection` (lines 951-986). -/
def suggestReflection (now : Nat) (st : PlannerState) : PlannerState :=
  if (st.suggestions.find? fun s =>
      s.type == .REFLECTION_REMINDER && !s.dismissed).isSome then st
  else if (st.checkIns.filter fun c =>
      sameDay c.slot now && c.category == "Journal").length = 0 then
    let suggestion : PlannerSuggestion := {
      id := st.nextId
      type := .REFLECTION_REMINDER
      priority := .low
      title := "Evening Reflection"
      description := "Take a few minutes to journal about your day."
      action := some { type := .navigate, payload := { sectionName := some "journal" } }
      createdAt := now
      expiresAt := some (now + 3 * 60 * 60000) }
    { st with
      nextId := st.nextId + 1
      suggestions := addSuggestion st.config suggestion st.suggestions
      auditTrail := st.auditTrail ++
        [audit "AI_SUGGESTION" "info" "Reflection reminder sent during reflective hours"] }
  else st

/-- The body of `checkAnchorReminders`' `forEach`: emit one reminder for
`anchor` unless a reminder with its anchor id already exists (dismissed or
not - the source does not filter on `dismissed` here). -/
def anchorReminderStep (now : Nat) (st : PlannerState) (anchor : CheckIn) :
    PlannerState :=
  if (st.suggestions.find? fun s =>
      s.type == .ANCHOR_REMINDER && anchorIdOf s == some anchor.id).isSome then st
  else
    let suggestion : PlannerSuggestion := {
      id := st.nextId
      type := .ANCHOR_REMINDER
      priority := .medium
      title := "Anchor Starting Soon"
      description := anchor.task ++ " starts in " ++
        toString (roundMinutes (anchor.slot - now)) ++ " minutes. Prepare to transition."
      action := some { type := .navigate, payload := { anchorId := some anchor.id } }
      createdAt := now
      expiresAt := some (anchor.slot + 5 * 60000) }
    { st with
      nextId := st.nextId + 1
      suggestions := addSuggestion st.config suggestion st.suggestions
      auditTrail := st.auditTrail ++ [audit "AI_SUGGESTION" "info" "Anchor reminder"] }

/-- `checkAnchorReminders` (lines 991-1034).  `minutesUntil > 0 &&
minutesUntil <= leadTime` over fractional minutes is exactly
`now < slot ∧ slot ≤ now + leadTime * 60000` in milliseconds. -/
def checkAnchorReminders (now : Nat) (st : PlannerState) : PlannerState :=
  let upcomingAnchors := st.checkIns.filter fun c =>
    c.isAnchor && !c.done && sameDay c.slot now &&
      decide (now < c.slot) && decide (c.slot ≤ now + st.config.anchorReminderLeadTime * 60000)
  upcomingAnchors.foldl (anchorReminderStep now) st

/-- `checkFrictionPatterns` (lines 1039-1086).  `slotTime < now - 15*60000`
over signed milliseconds is `slot + 15 * 60000 < now`. -/
def checkFrictionPatterns (now : Nat) (st : PlannerState) : PlannerState :=
  let todayCheckIns := st.checkIns.filter fun c => sameDay c.slot now
  let overdueCount := (todayCheckIns.filter fun c =>
    !c.done && decide (c.slot + 15 * 60000 < now)).length
  if overdueCount ≥ st.config.frictionThreshold then
    if (st.suggestions.find? fun s =>
        s.type == .FRICTION_WARNING && !s.dismissed).isSome then st
    else
      let slot := findNextAvailableSlot st.config st.calendarEvents st.checkIns 10 now
      let suggestion : PlannerSuggestion := {
        id := st.nextId
        type := .FRICTION_WARNING
        priority := .high
        title := "Schedule Friction Detected"
        description := toString overdueCount ++ " tasks are overdue."
        action := some {
          type := .create_event
          payload := {
            summary := some "Regroup and Plan"
            description := some "Take a moment to review and adjust your schedule"
            start := slot.map (·.start)
            stop := slot.map (·.stop)
            durationMinutes := some 10
            colorId := some "11" } }
        createdAt := now
        expiresAt := some (now + 60 * 60000) }
      { st with
        nextId := st.nextId + 1
        suggestions := addSuggestion st.config suggestion st.suggestions
        auditTrail := st.auditTrail ++ [audit "AI_SUGGESTION" "warning" "Friction warning"] }
  else st

/-- `checkUnscheduledTasks` (lines 1091-1140). -/
def checkUnscheduledTasks (now : Nat) (st : PlannerState) : PlannerState :=
  if st.currentRhythmState ≠ .OPEN then st
  else
    let hour := getHours now
    if hour < st.config.workingHours.start ∨ hour ≥ st.config.workingHours.stop then st
    else
      let upcomingToday := st.checkIns.filter fun c =>
        !c.done && sameDay c.slot now && decide (now < c.slot)
      if upcomingToday.length = 0 then
        if (st.suggestions.find? fun s =>
            s.type == .FOCUS_BLOCK && !s.dismissed).isSome then st
        else
          match findNextAvailableSlot st.config st.calendarEvents st.checkIns
              st.config.defaultFocusBlockDuration now with
          | none => st
          | some slot =>
            let suggestion : PlannerSuggestion := {
              id := st.nextId
              type := .FOCUS_BLOCK
              priority := .low
              title := "Open Time Available"
              description := "You have unscheduled time. Consider adding a " ++
                toString st.config.defaultFocusBlockDuration ++ "-minute focus block."
              action := some {
                type := .create_event
                payload := {
                  summary := some "Focus Block"
                  description := some "Dedicated focus time"
                  start := some slot.start
                  stop := some slot.stop
                  durationMinutes := some st.config.defaultFocusBlockDuration
                  colorId := some "7" } }
              createdAt := now
              expiresAt := some (now + 2 * 60 * 60000) }
            { st with
              nextId := st.nextId + 1
              suggestions := addSuggestion st.config suggestion st.suggestions }
      else st

/-- The opening extended-focus check of `analyzeAndSuggest` (lines
922-928): while still in FOCUS past the threshold, run the break policy. -/
def analyzeBreakStep (gw : GatewayResult) (now : Nat) (st : PlannerState) :
    PlannerState :=
  match st.lastFocusStart with
  | some f =>
    if st.currentRhythmState = .FOCUS ∧
        now - f > st.config.focusBreakThreshold * 60000 then
      (ensureBreakAfterFocus (now - f) st.lastFocusTask gw now st).1
    else st
  | none => st

/-- `analyzeAndSuggest` (lines 919-946): extended-focus check, anchor
reminders, friction, idle-time focus blocks, then the expiry sweep.
Listener notification carries no state and is omitted. -/
def analyzeAndSuggest (gw : GatewayResult) (now : Nat) (st : PlannerState) :
    PlannerState :=
  let st := analyzeBreakStep gw now st
  let st := checkAnchorReminders now st
  let st := if st.config.enableFrictionDetection then checkFrictionPatterns now st else st
  let st := checkUnscheduledTasks now st
  { st with suggestions := cleanupSuggestions now st.suggestions }

/-- `onRhythmStateChange` (lines 645-673). -/
def onRhythmStateChange (newState : RhythmState) (trigger : String)
    (gw : GatewayResult) (now : Nat) (st : PlannerState) : PlannerState :=
  let oldState := st.currentRhythmState
  let st := { st with currentRhythmState := newState }
  let st := if newState = .FOCUS ∧ oldState ≠ .FOCUS then
      { st with lastFocusStart := some now, lastFocusTask := extractFocusTask trigger }
    else st
  let st :=
    if oldState = .FOCUS ∧ newState ≠ .FOCUS then
      match st.lastFocusStart with
      | some f =>
        let st := if now - f > st.config.focusBreakThreshold * 60000 then
            (ensureBreakAfterFocus (now - f) st.lastFocusTask gw now st).1
          else st
        { st with lastFocusStart := none, lastFocusTask := none }
      | none => st
    else st
  let st := if newState = .REFLECTIVE ∧ oldState ≠ .REFLECTIVE then
      suggestReflection now st
    else st
  analyzeAndSuggest gw now st

/-- `updateCheckIns` (lines 480-483). -/
def updateCheckIns (checkIns : List CheckIn) (gw : GatewayResult) (now : Nat)
    (st : PlannerState) : PlannerState :=
  analyzeAndSuggest gw now { st with checkIns := checkIns }

/-- `updatePreferences` (lines 441-460): merge, sync config, and re-run the
analysis pass only when auto-schedule was just enabled. -/
def updatePreferences (prefs : PartialPreferences) (gw : GatewayResult)
    (now : Nat) (st : PlannerState) : PlannerState :=
  let oldPrefs := st.preferences
  let newPrefs := mergePreferences st.preferences prefs
  let st := { st with
    preferences := newPrefs
    config := syncConfigWithPreferences st.config newPrefs
    auditTrail := st.auditTrail ++
      [audit "PROFILE_UPDATED" "info" "Planner preferences updated"] }
  if !oldPrefs.autoScheduleEnabled && newPrefs.autoScheduleEnabled then
    analyzeAndSuggest gw now st
  else st

/-- `dismissSuggestion` (lines 1184-1198). -/
def plannerDismissSuggestion (suggestionId : Nat) (st : PlannerState) :
    PlannerState :=
  if (st.suggestions.find? fun s => s.id == suggestionId).isSome then
    { st with
      suggestions := dismissFirst suggestionId st.suggestions
      auditTrail := st.auditTrail ++ [audit "AI_SUGGESTION" "info" "Suggestion dismissed"] }
  else st

/-- `acceptSuggestion` (lines 1203-1218): marks dismissal, audits, and
returns the suggestion for the caller to act on. -/
def acceptSuggestion (suggestionId : Nat) (st : PlannerState) :
    PlannerState × Option PlannerSuggestion :=
  match st.suggestions.find? fun s => s.id == suggestionId with
  | none => (st, none)
  | some suggestion =>
    ({ st with
        suggestions := dismissFirst suggestionId st.suggestions
        auditTrail := st.auditTrail ++
          [audit "AI_INTERVENTION" "success" "Suggestion accepted"] },
     some suggestion)

/-- `cancelAutoScheduledEvent` (lines 883-914); `deleteOk` is the outcome
oracle of the gateway `deleteEvent` call. -/
def cancelAutoScheduledEvent (suggestionId : Nat) (deleteOk : Bool)
    (st : PlannerState) : PlannerState × Bool :=
  match st.autoScheduledEvents.find? fun p => p.1 == suggestionId with
  | none => (st, false)
  | some _ =>
    if !st.hasCalendarService then (st, false)
    else if deleteOk then
      ({ st with
          autoScheduledEvents := st.autoScheduledEvents.filter fun p => p.1 != suggestionId
          suggestions := dismissFirst suggestionId st.suggestions
          auditTrail := st.auditTrail ++
            [audit "AUTO_SCHEDULE" "info" "Auto-scheduled event cancelled"] },
       true)
    else
      ({ st with auditTrail := st.auditTrail ++
          [audit "ERROR" "error" "Failed to cancel auto-scheduled event"] }, false)

/-- `setCalendarService` (lines 426-436). -/
def setCalendarService (connected : Bool) (st : PlannerState) : PlannerState :=
  let st := { st with hasCalendarService := connected }
  if connected then
    { st with auditTrail := st.auditTrail ++
        [audit "SYSTEM_INIT" "info" "Calendar service connected to planner"] }
  else st

/-- `refreshCalendarEvents` (lines 502-539): replace the cached snapshot
with the gateway `listEvents` result, or audit the failure; `fetched` is
the outcome oracle of that call. -/
def refreshCalendarEvents (fetched : Option (List CalendarEvent))
    (st : PlannerState) : PlannerState :=
  if !st.hasCalendarService then st
  else match fetched with
    | some events =>
      { st with
        calendarEvents := events
        auditTrail := st.auditTrail ++
          [audit "GCAL_IMPORT" "info" "Refreshed calendar events"] }
    | none =>
      { st with auditTrail := st.auditTrail ++
          [audit "ERROR" "error" "Failed to refresh calendar events"] }

/-- One public planner operation, with its oracle inputs (clock reading and
gateway outcomes) made explicit. -/
inductive PlannerOp
  | updCheckIns (checkIns : List CheckIn) (now : Nat) (gw : GatewayResult)
  | rhythmChange (newState : RhythmState) (trigger : String) (now : Nat)
      (gw : GatewayResult)
  | updPrefs (prefs : PartialPreferences) (now : Nat) (gw : GatewayResult)
  | dismiss (suggestionId : Nat)
  | accept (suggestionId : Nat)
  | schedFocus (taskName : Option String) (durationMinutes : Option Nat)
      (now : Nat) (gw : GatewayResult)
  | ensureBreak (focusDurationMs : Nat) (afterTask : Option String) (now : Nat)
      (gw : GatewayResult)
  | cancelAuto (suggestionId : Nat) (deleteOk : Bool)
  | setService (connected : Bool)
  | refreshEvents (fetched : Option (List CalendarEvent))

/-- Interpret one operation. -/
def runOp (st : PlannerState) : PlannerOp → PlannerState
  | .updCheckIns cs now gw => updateCheckIns cs gw now st
  | .rhythmChange s trig now gw => onRhythmStateChange s trig gw now st
  | .updPrefs p now gw => updatePreferences p gw now st
  | .dismiss id => plannerDismissSuggestion id st
  | .accept id => (acceptSuggestion id st).1
  | .schedFocus t d now gw => (scheduleFocusBlock t d gw now st).1
  | .ensureBreak ms t now gw => (ensureBreakAfterFocus ms t gw now st).1
  | .cancelAuto id ok => (cancelAutoScheduledEvent id ok st).1
  | .setService b => setCalendarService b st
  | .refreshEvents ev => refreshCalendarEvents ev st

/-- Interpret a sequence of operations from a starting state. -/
def runOps (st : PlannerState) (ops : List PlannerOp) : PlannerState :=
  ops.foldl runOp st

/-! ## Interval and conflict-detector lemmas -/

theorem timeRangesOverlap_iff (start1 end1 start2 end2 : Nat) :
    timeRangesOverlap start1 end1 start2 end2 = true ↔
      start1 < end2 ∧ end1 > start2 := by
  simp [timeRangesOverlap]

theorem checkForConflicts_eq_nil_iff (events : List CalendarEvent)
    (checkIns : List CheckIn) (start stop : Nat) :
    checkForConflicts events checkIns start stop = [] ↔
      (∀ e ∈ events, timeRangesOverlap start stop e.start e.stop = false) ∧
      (∀ c ∈ checkIns, c.done = false →
        timeRangesOverlap start stop c.slot (c.slot + 30 * 60000) = false) := by
  rw [List.eq_nil_iff_forall_not_mem]
  unfold checkForConflicts
  constructor
  · intro h
    refine ⟨fun e he => ?_, fun c hc hdone => ?_⟩
    · by_contra hov
      rw [Bool.not_eq_false] at hov
      exact h e (List.mem_append_left _ (List.mem_filter.2 ⟨he, hov⟩))
    · by_contra hov
      rw [Bool.not_eq_false] at hov
      refine h _ (List.mem_append_right _ (List.mem_map.2
        ⟨c, List.mem_filter.2 ⟨hc, ?_⟩, rfl⟩))
      rw [hdone, hov]
      rfl
  · rintro ⟨h1, h2⟩ e he
    rcases List.mem_append.1 he with hm | hm
    · obtain ⟨hmem, hov⟩ := List.mem_filter.1 hm
      rw [h1 e hmem] at hov
      cases hov
    · obtain ⟨c, hcm, rfl⟩ := List.mem_map.1 hm
      obtain ⟨hmem, hcond⟩ := List.mem_filter.1 hcm
      simp only [Bool.and_eq_true, Bool.not_eq_true'] at hcond
      rw [h2 c hmem hcond.1] at hcond
      cases hcond.2

theorem mem_checkForConflicts_start_lt_stop {events : List CalendarEvent}
    {checkIns : List CheckIn} {start stop : Nat} {e : CalendarEvent}
    (he : e ∈ checkForConflicts events checkIns start stop) : start < e.stop := by
  unfold checkForConflicts at he
  rcases List.mem_append.1 he with h | h
  · obtain ⟨_, hov⟩ := List.mem_filter.1 h
    exact ((timeRangesOverlap_iff _ _ _ _).1 hov).1
  · obtain ⟨c, hc, rfl⟩ := List.mem_map.1 h
    obtain ⟨_, hcond⟩ := List.mem_filter.1 hc
    simp only [Bool.and_eq_true] at hcond
    exact ((timeRangesOverlap_iff _ _ _ _).1 hcond.2).1

theorem stop_le_latestEnd {e : CalendarEvent} {l : List CalendarEvent}
    (h : e ∈ l) : e.stop ≤ latestEnd l := by
  induction l with
  | nil => cases h
  | cons x xs ih =>
    rcases List.mem_cons.1 h with rfl | h'
    · exact le_max_left _ _
    · exact le_trans (ih h') (le_max_right _ _)

theorem lt_latestEnd_checkForConflicts {events : List CalendarEvent}
    {checkIns : List CheckIn} {start stop : Nat}
    (h : checkForConflicts events checkIns start stop ≠ []) :
    start < latestEnd (checkForConflicts events checkIns start stop) := by
  obtain ⟨e, he⟩ := List.exists_mem_of_ne_nil _ h
  exact lt_of_lt_of_le (mem_checkForConflicts_start_lt_stop he) (stop_le_latestEnd he)

/-! ## Slot-finder loop lemmas -/

/-- Everything true of a slot the loop returns: it is marked available, it
spans exactly the requested duration from a start at or after the initial
candidate and strictly before the ceiling, it passed the working-hours
guard, and the conflict detector found nothing on it. -/
theorem findSlotLoop_some {cfg : PlannerConfig} {events : List CalendarEvent}
    {checkIns : List CheckIn} {d maxS : Nat} :
    ∀ {fuel searchTime : Nat} {slot : TimeSlot},
      findSlotLoop cfg events checkIns d maxS searchTime fuel = some slot →
      slot.available = true ∧
      slot.stop = slot.start + d * 60000 ∧
      searchTime ≤ slot.start ∧
      slot.start < maxS ∧
      ¬(getHours slot.stop > cfg.workingHours.stop ∨
        (getHours slot.stop = cfg.workingHours.stop ∧ getMinutes slot.stop > 0)) ∧
      checkForConflicts events checkIns slot.start slot.stop = [] := by
  intro fuel
  induction fuel with
  | zero => intro searchTime slot h; simp [findSlotLoop] at h
  | succ fuel ih =>
    intro searchTime slot h
    simp only [findSlotLoop] at h
    by_cases hguard : searchTime < maxS
    swap
    · rw [if_neg hguard] at h; cases h
    rw [if_pos hguard] at h
    by_cases hhours : getHours (searchTime + d * 60000) > cfg.workingHours.stop ∨
        (getHours (searchTime + d * 60000) = cfg.workingHours.stop ∧
          getMinutes (searchTime + d * 60000) > 0)
    · rw [if_pos hhours] at h; cases h
    rw [if_neg hhours] at h
    by_cases hempty : (checkForConflicts events checkIns searchTime
        (searchTime + d * 60000)).isEmpty = true
    · rw [if_pos hempty] at h
      obtain rfl := Option.some.inj h
      exact ⟨rfl, rfl, le_refl _, hguard, hhours, List.isEmpty_iff.1 hempty⟩
    · rw [if_neg hempty] at h
      by_cases hlen : (checkForConflicts events checkIns searchTime
          (searchTime + d * 60000)).length > 0
      · rw [if_pos hlen] at h
        have hne : checkForConflicts events checkIns searchTime
            (searchTime + d * 60000) ≠ [] :=
          fun hnil => hempty (by rw [hnil]; rfl)
        have hadv := lt_latestEnd_checkForConflicts hne
        obtain ⟨h1, h2, h3, h4, h5, h6⟩ := ih h
        exact ⟨h1, h2, le_trans (le_trans hadv.le (Nat.le_add_right _ _)) h3,
          h4, h5, h6⟩
      · rw [if_neg hlen] at h
        obtain ⟨h1, h2, h3, h4, h5, h6⟩ := ih h
        exact ⟨h1, h2, le_trans (Nat.le_add_right _ _) h3, h4, h5, h6⟩

/-- Extra fuel beyond `maxSearchTime - searchTime` never changes the loop's
answer: the candidate start strictly advances every iteration, so that much
fuel already reaches the loop's own exit. -/
theorem findSlotLoop_fuel_sufficient {cfg : PlannerConfig}
    {events : List CalendarEvent} {checkIns : List CheckIn} {d maxS : Nat} :
    ∀ fuel₁ : Nat, ∀ {fuel₂ searchTime : Nat},
      maxS - searchTime ≤ fuel₁ → maxS - searchTime ≤ fuel₂ →
      findSlotLoop cfg events checkIns d maxS searchTime fuel₁ =
        findSlotLoop cfg events checkIns d maxS searchTime fuel₂ := by
  intro fuel₁
  induction fuel₁ with
  | zero =>
    intro fuel₂ s h1 h2
    have hns : ¬s < maxS := by omega
    cases fuel₂ with
    | zero => rfl
    | succ f2 => simp only [findSlotLoop]; rw [if_neg hns]
  | succ f1 ih =>
    intro fuel₂ s h1 h2
    cases fuel₂ with
    | zero =>
      have hns : ¬s < maxS := by omega
      simp only [findSlotLoop]; rw [if_neg hns]
    | succ f2 =>
      simp only [findSlotLoop]
      by_cases hguard : s < maxS
      swap
      · rw [if_neg hguard, if_neg hguard]
      rw [if_pos hguard, if_pos hguard]
      by_cases hhours : getHours (s + d * 60000) > cfg.workingHours.stop ∨
          (getHours (s + d * 60000) = cfg.workingHours.stop ∧
            getMinutes (s + d * 60000) > 0)
      · rw [if_pos hhours, if_pos hhours]
      rw [if_neg hhours, if_neg hhours]
      by_cases hempty : (checkForConflicts events checkIns s
          (s + d * 60000)).isEmpty = true
      · rw [if_pos hempty, if_pos hempty]
      rw [if_neg hempty, if_neg hempty]
      by_cases hlen : (checkForConflicts events checkIns s
          (s + d * 60000)).length > 0
      · rw [if_pos hlen, if_pos hlen]
        have hne : checkForConflicts events checkIns s (s + d * 60000) ≠ [] :=
          fun hnil => hempty (by rw [hnil]; rfl)
        have hadv := lt_latestEnd_checkForConflicts hne
        exact ih (by omega) (by omega)
      · rw [if_neg hlen, if_neg hlen]
        exact ih (by omega) (by omega)

/-! ## Claim theorems: the interval test and the Slot Finder -/

/-- C7: the overlap test is half-open: two ranges conflict exactly when
`start1 < end2` and `end1 > start2`; intervals that merely touch at a
boundary never conflict; and the Conflict Detector (used by the Slot Finder
for every candidate) flags exactly the calendar events and pending
check-in windows that overlap under this test. -/
theorem timeRangesOverlap_halfOpen :
    (∀ start1 end1 start2 end2 : Nat,
      timeRangesOverlap start1 end1 start2 end2 = true ↔
        start1 < end2 ∧ end1 > start2) ∧
    (∀ a b c : Nat,
      timeRangesOverlap a b b c = false ∧ timeRangesOverlap b c a b = false) ∧
    (∀ (events : List CalendarEvent) (checkIns : List CheckIn) (start stop : Nat),
      checkForConflicts events checkIns start stop = [] ↔
        (∀ e ∈ events, ¬(start < e.stop ∧ stop > e.start)) ∧
        (∀ c ∈ checkIns, c.done = false →
          ¬(start < c.slot + 30 * 60000 ∧ stop > c.slot))) := by
  refine ⟨fun s1 e1 s2 e2 => by simp [timeRangesOverlap],
    fun a b c => ⟨by simp [timeRangesOverlap], by simp [timeRangesOverlap]⟩,
    fun events checkIns start stop => ?_⟩
  rw [checkForConflicts_eq_nil_iff]
  constructor
  · rintro ⟨h1, h2⟩
    refine ⟨fun e he => ?_, fun c hc hd => ?_⟩
    · have := h1 e he; simp [timeRangesOverlap] at this; omega
    · have := h2 c hc hd; simp [timeRangesOverlap] at this; omega
  · rintro ⟨h1, h2⟩
    refine ⟨fun e he => ?_, fun c hc hd => ?_⟩
    · have := h1 e he; simp [timeRangesOverlap]; omega
    · have := h2 c hc hd; simp [timeRangesOverlap]; omega

/-- C1: for every configuration, cached event set, pending check-ins,
requested duration and earliest start, a `TimeSlot` returned by
`findNextAvailableSlot` overlaps no cached `CalendarEvent` and no pending
check-in's synthetic 30-minute window, under the half-open test. -/
theorem findNextAvailableSlot_no_overlap
    (cfg : PlannerConfig) (events : List CalendarEvent) (checkIns : List CheckIn)
    (durationMinutes afterTime : Nat) (slot : TimeSlot)
    (h : findNextAvailableSlot cfg events checkIns durationMinutes afterTime =
      some slot) :
    (∀ e ∈ events, timeRangesOverlap slot.start slot.stop e.start e.stop = false) ∧
    (∀ c ∈ checkIns, c.done = false →
      timeRangesOverlap slot.start slot.stop c.slot (c.slot + 30 * 60000) = false) := by
  simp only [findNextAvailableSlot] at h
  exact (checkForConflicts_eq_nil_iff _ _ _ _).1 (findSlotLoop_some h).2.2.2.2.2

/-- Witness for C1 at a concrete input: one cached event and one pending
check-in, duration 15, earliest start 10:00. -/
theorem findNextAvailableSlot_no_overlap_witness :
    (∀ e ∈ [({ summary := "standup", start := 36000000, stop := 37800000 } :
        CalendarEvent)],
      timeRangesOverlap 39900000 40800000 e.start e.stop = false) ∧
    (∀ c ∈ [({ id := "c1", category := "General", task := "review",
               slot := 37800000, done := false } : CheckIn)], c.done = false →
      timeRangesOverlap 39900000 40800000 c.slot (c.slot + 30 * 60000) = false) :=
  findNextAvailableSlot_no_overlap DEFAULT_CONFIG
    [{ summary := "standup", start := 36000000, stop := 37800000 }]
    [{ id := "c1", category := "General", task := "review", slot := 37800000,
       done := false }]
    15 36000000 { start := 39900000, stop := 40800000, available := true }
    (by decide)

/-- C9: termination of the slot search.  Whenever a candidate has conflicts,
the latest conflicting end lies strictly beyond the candidate start, so the
jump to it (plus the minimum gap) strictly advances the candidate, and the
fixed 15-minute fallback does too; the candidate is bounded by the
working-hours ceiling, so `maxSearchTime - searchTime` loop steps always
suffice: any fuel of at least that many steps gives the same result as any
other, in particular the bounded run `findNextAvailableSlot` performs. -/
theorem findNextAvailableSlot_terminates :
    (∀ (events : List CalendarEvent) (checkIns : List CheckIn) (s t : Nat),
      checkForConflicts events checkIns s t ≠ [] →
      s < latestEnd (checkForConflicts events checkIns s t)) ∧
    (∀ (cfg : PlannerConfig) (events : List CalendarEvent)
        (checkIns : List CheckIn) (d maxS fuel searchTime : Nat),
      maxS - searchTime ≤ fuel →
      findSlotLoop cfg events checkIns d maxS searchTime fuel =
        findSlotLoop cfg events checkIns d maxS searchTime (maxS - searchTime)) :=
  ⟨fun _ _ _ _ h => lt_latestEnd_checkForConflicts h,
   fun _ _ _ _ _ fuel searchTime h =>
     findSlotLoop_fuel_sufficient fuel h (le_refl _)⟩

/-- Witness for C9 at a concrete input: a conflicted candidate advances, and
a surplus-fuel run equals the bounded run. -/
theorem findNextAvailableSlot_terminates_witness :
    (32400000 < latestEnd (checkForConflicts
      [{ summary := "standup", start := 32400000, stop := 34200000 }] []
      32400000 33300000)) ∧
    findSlotLoop DEFAULT_CONFIG [] [] 15 64800000 32400000 40000000 =
      findSlotLoop DEFAULT_CONFIG [] [] 15 64800000 32400000
        (64800000 - 32400000) := by
  constructor
  · exact findNextAvailableSlot_terminates.1
      [{ summary := "standup", start := 32400000, stop := 34200000 }] []
      32400000 33300000 (by decide)
  · exact findNextAvailableSlot_terminates.2 DEFAULT_CONFIG [] [] 15 64800000
      40000000 32400000 (by decide)

/-- C6 counterexample: with the default working hours (9 to 18) and a
1440-minute request first considered at 9:00, the finder returns a slot
ending at 9:00 on the *next day* - 54000 seconds past the working-hours end
instant - because the guard only inspects the hour-of-day of the candidate
end, which wrapped past midnight. -/
theorem findNextAvailableSlot_end_can_exceed_workingHours :
    findNextAvailableSlot DEFAULT_CONFIG [] [] 1440 32400000 =
      some { start := 32400000, stop := 118800000, available := true } ∧
    dayFloor 32400000 + DEFAULT_CONFIG.workingHours.stop * 3600000 = 64800000 ∧
    118800000 > 64800000 := by decide

/-- C6 (amended): any returned slot passes the working-hours end guard the
code actually applies: the hour-of-day of the slot's end is strictly below
`workingHours.end`, or equals it with a zero minute-of-hour component.  The
guard never inspects the date (or seconds), so a candidate end that wraps
past midnight can still exceed the working-hours end instant, as the
counterexample shows; within a single day the guard does force the search
to fail rather than return such a slot. -/
theorem findNextAvailableSlot_end_guard
    (cfg : PlannerConfig) (events : List CalendarEvent) (checkIns : List CheckIn)
    (durationMinutes afterTime : Nat) (slot : TimeSlot)
    (h : findNextAvailableSlot cfg events checkIns durationMinutes afterTime =
      some slot) :
    getHours slot.stop < cfg.workingHours.stop ∨
      (getHours slot.stop = cfg.workingHours.stop ∧ getMinutes slot.stop = 0) := by
  simp only [findNextAvailableSlot] at h
  have h5 := (findSlotLoop_some h).2.2.2.2.1
  push_neg at h5
  rcases Nat.lt_or_ge (getHours slot.stop) cfg.workingHours.stop with hlt | hge
  · exact Or.inl hlt
  · have heq : getHours slot.stop = cfg.workingHours.stop := by omega
    exact Or.inr ⟨heq, by have := h5.2 heq; omega⟩

/-- Witness for the amended C6 at a concrete input. -/
theorem findNextAvailableSlot_end_guard_witness :
    getHours 33300000 < DEFAULT_CONFIG.workingHours.stop ∨
      (getHours 33300000 = DEFAULT_CONFIG.workingHours.stop ∧
        getMinutes 33300000 = 0) :=
  findNextAvailableSlot_end_guard DEFAULT_CONFIG [] [] 15 32400000
    { start := 32400000, stop := 33300000, available := true } (by decide)

/-! ## The suggestion-store uniqueness invariant (claim C2) -/

/-- Two suggestions may coexist in the store: if both are live
(non-dismissed) and share a kind, that kind is `ANCHOR_REMINDER`; and two
anchor reminders never carry the same anchor id. -/
def SuggestionCompat (a b : PlannerSuggestion) : Prop :=
  (a.dismissed = false → b.dismissed = false → a.type = b.type →
    a.type = SuggestionType.ANCHOR_REMINDER) ∧
  (a.type = SuggestionType.ANCHOR_REMINDER →
    b.type = SuggestionType.ANCHOR_REMINDER → anchorIdOf a ≠ anchorIdOf b)

/-- The store invariant: every pair of entries is compatible. -/
def SuggestionInv (l : List PlannerSuggestion) : Prop :=
  l.Pairwise SuggestionCompat

theorem SuggestionCompat.symm {a b : PlannerSuggestion}
    (h : SuggestionCompat a b) : SuggestionCompat b a :=
  ⟨fun hb ha ht => ht.trans (h.1 ha hb ht.symm),
   fun hb ha => (h.2 ha hb).symm⟩

theorem suggestionCompat_dismiss_left {a b : PlannerSuggestion}
    (h : SuggestionCompat a b) :
    SuggestionCompat { a with dismissed := true } b := by
  refine ⟨fun hfalse => ?_, fun ha hb => h.2 ha hb⟩
  simp at hfalse

theorem suggestionCompat_dismiss_right {a b : PlannerSuggestion}
    (h : SuggestionCompat a b) :
    SuggestionCompat a { b with dismissed := true } :=
  (suggestionCompat_dismiss_left h.symm).symm

theorem mem_dismissFirst {suggestionId : Nat} :
    ∀ {l : List PlannerSuggestion} {b : PlannerSuggestion},
      b ∈ dismissFirst suggestionId l →
      b ∈ l ∨ ∃ x ∈ l, b = { x with dismissed := true } := by
  intro l
  induction l with
  | nil => intro b h; cases h
  | cons s rest ih =>
    intro b h
    rw [dismissFirst] at h
    split_ifs at h with hid
    · rcases List.mem_cons.1 h with rfl | h'
      · exact Or.inr ⟨s, List.mem_cons_self _ _, rfl⟩
      · exact Or.inl (List.mem_cons_of_mem _ h')
    · rcases List.mem_cons.1 h with rfl | h'
      · exact Or.inl (List.mem_cons_self _ _)
      · rcases ih h' with h'' | ⟨x, hx, rfl⟩
        · exact Or.inl (List.mem_cons_of_mem _ h'')
        · exact Or.inr ⟨x, List.mem_cons_of_mem _ hx, rfl⟩

theorem suggestionInv_dismissFirst (suggestionId : Nat) :
    ∀ {l : List PlannerSuggestion}, SuggestionInv l →
      SuggestionInv (dismissFirst suggestionId l) := by
  intro l
  induction l with
  | nil => intro h; exact h
  | cons s rest ih =>
    intro h
    obtain ⟨hhead, htail⟩ := List.pairwise_cons.1 h
    rw [dismissFirst]
    split_ifs with hid
    · exact List.pairwise_cons.2
        ⟨fun b hb => suggestionCompat_dismiss_left (hhead b hb), htail⟩
    · refine List.pairwise_cons.2 ⟨fun b hb => ?_, ih htail⟩
      rcases mem_dismissFirst hb with h' | ⟨x, hx, rfl⟩
      · exact hhead b h'
      · exact suggestionCompat_dismiss_right (hhead x hx)

theorem suggestionInv_trim {maxActive : Nat} {l : List PlannerSuggestion}
    (h : SuggestionInv l) : SuggestionInv (trimSuggestions maxActive l) := by
  unfold trimSuggestions trimSort
  split_ifs
  · exact List.Pairwise.take
      (((List.perm_insertionSort _ l).pairwise_iff
        fun hab => SuggestionCompat.symm hab).2 h)
  · exact h

theorem suggestionInv_cleanup {now : Nat} {l : List PlannerSuggestion}
    (h : SuggestionInv l) : SuggestionInv (cleanupSuggestions now l) :=
  h.sublist (List.filter_sublist l)

/-- `addSuggestion` preserves the invariant; for an anchor reminder the
caller must guarantee its anchor id is fresh (the source's
`checkAnchorReminders` guard). -/
theorem addSuggestion_inv {cfg : PlannerConfig} {s : PlannerSuggestion}
    {l : List PlannerSuggestion} (hInv : SuggestionInv l)
    (hAnchor : s.type = SuggestionType.ANCHOR_REMINDER →
      ∀ t ∈ l, t.type = SuggestionType.ANCHOR_REMINDER →
        anchorIdOf t ≠ anchorIdOf s) :
    SuggestionInv (addSuggestion cfg s l) := by
  simp only [addSuggestion]
  split_ifs with hguard
  · exact hInv
  · apply suggestionInv_trim
    rw [SuggestionInv, List.pairwise_append]
    refine ⟨hInv, List.pairwise_singleton _ _, fun a ha b hb => ?_⟩
    obtain rfl : b = s := by simpa using hb
    constructor
    · intro hadism hsdism htype
      by_cases hst : b.type = SuggestionType.ANCHOR_REMINDER
      · rw [htype]; exact hst
      · exfalso
        by_cases hfind : (l.find? fun t => t.type == b.type && !t.dismissed).isSome = true
        · apply hguard
          rw [Bool.and_eq_true]
          exact ⟨hfind, bne_iff_ne.2 hst⟩
        · have hnone : l.find? (fun t => t.type == b.type && !t.dismissed) = none :=
            Option.not_isSome_iff_eq_none.1 hfind
          have := List.find?_eq_none.mp hnone a ha
          simp [htype, hadism] at this
    · intro hat hst
      exact hAnchor hst a ha hat

/-- The non-anchor special case: the dedup guard alone preserves the
invariant. -/
theorem addSuggestion_inv_nonanchor {cfg : PlannerConfig}
    {s : PlannerSuggestion} {l : List PlannerSuggestion}
    (hs : s.type ≠ SuggestionType.ANCHOR_REMINDER) (hInv : SuggestionInv l) :
    SuggestionInv (addSuggestion cfg s l) :=
  addSuggestion_inv hInv fun h => absurd h hs

theorem ensureBreakAfterFocus_inv {focusDurationMs : Nat}
    {afterTask : Option String} {gw : GatewayResult} {now : Nat}
    {st : PlannerState} (h : SuggestionInv st.suggestions) :
    SuggestionInv
      (ensureBreakAfterFocus focusDurationMs afterTask gw now st).1.suggestions := by
  simp only [ensureBreakAfterFocus]
  repeat' split
  all_goals first
    | exact h
    | exact addSuggestion_inv_nonanchor (by simp) h

theorem scheduleFocusBlock_inv {taskName : Option String}
    {durationMinutes : Option Nat} {gw : GatewayResult} {now : Nat}
    {st : PlannerState} (h : SuggestionInv st.suggestions) :
    SuggestionInv
      (scheduleFocusBlock taskName durationMinutes gw now st).1.suggestions := by
  simp only [scheduleFocusBlock]
  repeat' split
  all_goals first
    | exact h
    | exact addSuggestion_inv_nonanchor (by simp) h

theorem suggestReflection_inv {now : Nat} {st : PlannerState}
    (h : SuggestionInv st.suggestions) :
    SuggestionInv (suggestReflection now st).suggestions := by
  simp only [suggestReflection]
  repeat' split
  all_goals first
    | exact h
    | exact addSuggestion_inv_nonanchor (by simp) h

theorem anchorReminderStep_inv {now : Nat} {st : PlannerState} {c : CheckIn}
    (h : SuggestionInv st.suggestions) :
    SuggestionInv (anchorReminderStep now st c).suggestions := by
  simp only [anchorReminderStep]
  split_ifs with hfound
  · exact h
  · apply addSuggestion_inv h
    intro _ t ht htype
    have hnone : st.suggestions.find? (fun s =>
        s.type == .ANCHOR_REMINDER && anchorIdOf s == some c.id) = none :=
      Option.not_isSome_iff_eq_none.1 hfound
    have hpred := List.find?_eq_none.mp hnone t ht
    simp only [Bool.and_eq_true, beq_iff_eq, not_and] at hpred
    exact hpred htype

theorem checkAnchorReminders_inv {now : Nat} {st : PlannerState}
    (h : SuggestionInv st.suggestions) :
    SuggestionInv (checkAnchorReminders now st).suggestions := by
  simp only [checkAnchorReminders]
  generalize st.checkIns.filter _ = anchors
  induction anchors generalizing st with
  | nil => exact h
  | cons c cs ih => exact ih (anchorReminderStep_inv h)

theorem checkFrictionPatterns_inv {now : Nat} {st : PlannerState}
    (h : SuggestionInv st.suggestions) :
    SuggestionInv (checkFrictionPatterns now st).suggestions := by
  simp only [checkFrictionPatterns]
  repeat' split
  all_goals first
    | exact h
    | exact addSuggestion_inv_nonanchor (by simp) h

theorem checkUnscheduledTasks_inv {now : Nat} {st : PlannerState}
    (h : SuggestionInv st.suggestions) :
    SuggestionInv (checkUnscheduledTasks now st).suggestions := by
  simp only [checkUnscheduledTasks]
  repeat' split
  all_goals first
    | exact h
    | exact addSuggestion_inv_nonanchor (by simp) h

theorem analyzeBreakStep_inv {gw : GatewayResult} {now : Nat}
    {st : PlannerState} (h : SuggestionInv st.suggestions) :
    SuggestionInv (analyzeBreakStep gw now st).suggestions := by
  simp only [analyzeBreakStep]
  repeat' split
  all_goals first
    | exact h
    | exact ensureBreakAfterFocus_inv h

theorem analyzeAndSuggest_inv {gw : GatewayResult} {now : Nat}
    {st : PlannerState} (h : SuggestionInv st.suggestions) :
    SuggestionInv (analyzeAndSuggest gw now st).suggestions := by
  simp only [analyzeAndSuggest]
  apply suggestionInv_cleanup
  apply checkUnscheduledTasks_inv
  have h2 : SuggestionInv
      (checkAnchorReminders now (analyzeBreakStep gw now st)).suggestions :=
    checkAnchorReminders_inv (analyzeBreakStep_inv h)
  split_ifs
  · exact checkFrictionPatterns_inv h2
  · exact h2

theorem onRhythmStateChange_inv {newState : RhythmState} {trigger : String}
    {gw : GatewayResult} {now : Nat} {st : PlannerState}
    (h : SuggestionInv st.suggestions) :
    SuggestionInv (onRhythmStateChange newState trigger gw now st).suggestions := by
  simp only [onRhythmStateChange]
  apply analyzeAndSuggest_inv
  repeat' split
  all_goals first
    | exact h
    | exact ensureBreakAfterFocus_inv h
    | exact suggestReflection_inv h
    | exact suggestReflection_inv (ensureBreakAfterFocus_inv h)

theorem updateCheckIns_inv {checkIns : List CheckIn} {gw : GatewayResult}
    {now : Nat} {st : PlannerState} (h : SuggestionInv st.suggestions) :
    SuggestionInv (updateCheckIns checkIns gw now st).suggestions :=
  analyzeAndSuggest_inv h

theorem updatePreferences_inv {prefs : PartialPreferences} {gw : GatewayResult}
    {now : Nat} {st : PlannerState} (h : SuggestionInv st.suggestions) :
    SuggestionInv (updatePreferences prefs gw now st).suggestions := by
  simp only [updatePreferences]
  split_ifs
  · exact analyzeAndSuggest_inv h
  · exact h

theorem plannerDismissSuggestion_inv {suggestionId : Nat} {st : PlannerState}
    (h : SuggestionInv st.suggestions) :
    SuggestionInv (plannerDismissSuggestion suggestionId st).suggestions := by
  simp only [plannerDismissSuggestion]
  split_ifs
  · exact suggestionInv_dismissFirst _ h
  · exact h

theorem acceptSuggestion_inv {suggestionId : Nat} {st : PlannerState}
    (h : SuggestionInv st.suggestions) :
    SuggestionInv (acceptSuggestion suggestionId st).1.suggestions := by
  simp only [acceptSuggestion]
  split
  · exact h
  · exact suggestionInv_dismissFirst _ h

theorem cancelAutoScheduledEvent_inv {suggestionId : Nat} {deleteOk : Bool}
    {st : PlannerState} (h : SuggestionInv st.suggestions) :
    SuggestionInv (cancelAutoScheduledEvent suggestionId deleteOk st).1.suggestions := by
  simp only [cancelAutoScheduledEvent]
  repeat' split
  all_goals first
    | exact h
    | exact suggestionInv_dismissFirst _ h

theorem runOp_inv {st : PlannerState} (h : SuggestionInv st.suggestions) :
    ∀ op : PlannerOp, SuggestionInv (runOp st op).suggestions
  | .updCheckIns _ _ _ => updateCheckIns_inv h
  | .rhythmChange _ _ _ _ => onRhythmStateChange_inv h
  | .updPrefs _ _ _ => updatePreferences_inv h
  | .dismiss _ => plannerDismissSuggestion_inv h
  | .accept _ => acceptSuggestion_inv h
  | .schedFocus _ _ _ _ => scheduleFocusBlock_inv h
  | .ensureBreak _ _ _ _ => ensureBreakAfterFocus_inv h
  | .cancelAuto _ _ => cancelAutoScheduledEvent_inv h
  | .setService b => by
      simp only [runOp, setCalendarService]
      split_ifs <;> exact h
  | .refreshEvents ev => by
      simp only [runOp, refreshCalendarEvents]
      repeat' split
      all_goals exact h

theorem runOps_inv :
    ∀ (ops : List PlannerOp) (st : PlannerState),
      SuggestionInv st.suggestions → SuggestionInv (runOps st ops).suggestions
  | [], _, h => h
  | op :: ops, st, h => runOps_inv ops (runOp st op) (runOp_inv h op)

/-- C2: after any sequence of planner operations (state-change triggers,
check-in updates, preference updates, dismiss/accept calls, direct
scheduling calls, cancellations) from a freshly constructed planner, the
suggestion list never holds two non-dismissed suggestions of the same kind,
except `ANCHOR_REMINDER`, for which uniqueness is per anchor identity (the
action payload's `anchorId`): every pair of distinct entries satisfies
`SuggestionCompat`. -/
theorem suggestionList_unique_per_kind (config : PlannerConfig)
    (ops : List PlannerOp) :
    SuggestionInv (runOps (RhythmPlanner.init config) ops).suggestions :=
  runOps_inv ops _ List.Pairwise.nil

/-- A minimal suggestion for concrete store evaluations. -/
def basicSuggestion (id : Nat) (type : SuggestionType) (priority : Priority)
    (createdAt : Nat) (dismissed : Bool) : PlannerSuggestion where
  id := id
  type := type
  priority := priority
  title := ""
  description := ""
  createdAt := createdAt
  dismissed := dismissed

/-- C3: evaluating `addSuggestion` at a concrete over-capacity input shows
the capacity trim KEEPS dismissed suggestions first instead of removing
them first: with `maxActiveSuggestions = 2`, inserting a fresh live
medium-priority suggestion into a store holding a dismissed low-priority
entry and a live high-priority one evicts the fresh live suggestion and
keeps the dismissed one, because the comparator sorts dismissed entries to
the front and the trim keeps the first `maxActiveSuggestions` entries. -/
theorem addSuggestion_keeps_dismissed_first :
    addSuggestion { DEFAULT_CONFIG with maxActiveSuggestions := 2 }
        (basicSuggestion 2 .BREAK_NEEDED .medium 2000 false)
        [basicSuggestion 0 .SCHEDULE_ADJUSTMENT .low 0 true,
         basicSuggestion 1 .FRICTION_WARNING .high 1000 false] =
      [basicSuggestion 0 .SCHEDULE_ADJUSTMENT .low 0 true,
       basicSuggestion 1 .FRICTION_WARNING .high 1000 false] ∧
    (basicSuggestion 0 .SCHEDULE_ADJUSTMENT .low 0 true).dismissed = true ∧
    (basicSuggestion 2 .BREAK_NEEDED .medium 2000 false).dismissed = false := by
  decide

/-! ## Claim C10: the expiry sweep deletes, and every analysis pass ends with it -/

theorem mem_cleanupSuggestions {now : Nat} {l : List PlannerSuggestion}
    {s : PlannerSuggestion} :
    s ∈ cleanupSuggestions now l ↔
      s ∈ l ∧ s.dismissed = false ∧ ∀ e, s.expiresAt = some e → ¬e < now := by
  unfold cleanupSuggestions
  rw [List.mem_filter]
  refine and_congr_right fun _ => ?_
  cases hdis : s.dismissed <;> cases hexp : s.expiresAt <;>
    simp [hdis, hexp]

/-- C10: `cleanupSuggestions` truly deletes: an entry survives it exactly
when it is in the input, not dismissed, and not expired; and both
suggestion-data triggers (`updateCheckIns`, `onRhythmStateChange`) end
their analysis pass with this sweep, so afterwards the stored list holds
only non-dismissed, unexpired suggestions (hence a dismissed suggestion is
gone from the stored list after the pass and can no longer suppress
per-kind or per-anchor deduplication at later triggers). -/
theorem analysisPass_purges_dismissed_and_expired :
    (∀ (now : Nat) (l : List PlannerSuggestion) (s : PlannerSuggestion),
      s ∈ cleanupSuggestions now l ↔
        s ∈ l ∧ s.dismissed = false ∧ ∀ e, s.expiresAt = some e → ¬e < now) ∧
    (∀ (checkIns : List CheckIn) (gw : GatewayResult) (now : Nat)
        (st : PlannerState),
      ∀ s ∈ (updateCheckIns checkIns gw now st).suggestions,
        s.dismissed = false ∧ ∀ e, s.expiresAt = some e → ¬e < now) ∧
    (∀ (newState : RhythmState) (trigger : String) (gw : GatewayResult)
        (now : Nat) (st : PlannerState),
      ∀ s ∈ (onRhythmStateChange newState trigger gw now st).suggestions,
        s.dismissed = false ∧ ∀ e, s.expiresAt = some e → ¬e < now) := by
  refine ⟨fun _ _ _ => mem_cleanupSuggestions, ?_, ?_⟩
  · intro checkIns gw now st s hs
    simp only [updateCheckIns, analyzeAndSuggest] at hs
    exact (mem_cleanupSuggestions.1 hs).2
  · intro newState trigger gw now st s hs
    simp only [onRhythmStateChange, analyzeAndSuggest] at hs
    exact (mem_cleanupSuggestions.1 hs).2

/-- A concrete analysis pass that produces a suggestion: a fresh planner in
the OPEN state at 10:00 with no check-ins emits one idle-time focus block. -/
def sampleAnalysisState : PlannerState :=
  updateCheckIns [] .failure 36000000 (RhythmPlanner.init DEFAULT_CONFIG)

/-- The head of that pass's suggestion list. -/
def sampleAnalysisSuggestion : PlannerSuggestion :=
  sampleAnalysisState.suggestions.headD
    (basicSuggestion 0 .FOCUS_BLOCK .low 0 false)

/-- Witness for C10 at a concrete input. -/
theorem analysisPass_purges_witness :
    sampleAnalysisSuggestion.dismissed = false ∧
      ∀ e, sampleAnalysisSuggestion.expiresAt = some e → ¬e < 36000000 :=
  analysisPass_purges_dismissed_and_expired.2.1 [] .failure 36000000
    (RhythmPlanner.init DEFAULT_CONFIG) sampleAnalysisSuggestion (by decide)

/-! ## Claim C4: AUTO_SCHEDULED only on confirmed gateway success -/

/-- C4: under the auto-schedule gate (toggle on, calendar service attached,
confirmation off), a break suggestion's kind is rewritten to
`AUTO_SCHEDULED` exactly on a resolved gateway create call, with the
returned calendar event id recorded on the suggestion and in the
suggestion-to-event-id map; on a rejected create the suggestion keeps kind
`BREAK_NEEDED`, is stored as a plain proposal, the map is unchanged, and an
ERROR audit entry is the only record of the failure; with the gate closed
the kind stays `BREAK_NEEDED` for every oracle outcome.  The focus-block
path behaves the same way for `FOCUS_BLOCK`. -/
theorem autoScheduled_only_after_gateway_success
    (focusDurationMs : Nat) (afterTask taskName : Option String)
    (now : Nat) (st : PlannerState) (eventId : Option String)
    (hfresh : st.suggestions.find?
      (fun s => s.type == .BREAK_NEEDED && !s.dismissed) = none)
    (slotB : TimeSlot)
    (hslotB : findNextAvailableSlot st.config st.calendarEvents st.checkIns
      st.config.defaultBreakDuration now = some slotB)
    (slotF : TimeSlot)
    (hslotF : findNextAvailableSlot st.config st.calendarEvents st.checkIns
      st.config.defaultFocusBlockDuration now = some slotF) :
    ((st.config.autoScheduleBreaks && st.hasCalendarService &&
        !st.config.requireConfirmation) = true →
      (∃ s, (ensureBreakAfterFocus focusDurationMs afterTask
            (.success eventId) now st).2 = some s ∧
        s.type = .AUTO_SCHEDULED ∧ s.calendarEventId = eventId ∧
        (ensureBreakAfterFocus focusDurationMs afterTask (.success eventId)
            now st).1.autoScheduledEvents =
          (s.id, eventId) :: st.autoScheduledEvents) ∧
      (∃ s, (ensureBreakAfterFocus focusDurationMs afterTask .failure
            now st).2 = some s ∧
        s.type = .BREAK_NEEDED ∧ s.autoScheduled = false ∧
        s.calendarEventId = none ∧
        (ensureBreakAfterFocus focusDurationMs afterTask .failure
            now st).1.autoScheduledEvents = st.autoScheduledEvents ∧
        (ensureBreakAfterFocus focusDurationMs afterTask .failure
            now st).1.suggestions = addSuggestion st.config s st.suggestions ∧
        (ensureBreakAfterFocus focusDurationMs afterTask .failure
            now st).1.auditTrail =
          st.auditTrail ++ [audit "ERROR" "error" "Failed to auto-schedule break"])) ∧
    ((st.config.autoScheduleBreaks && st.hasCalendarService &&
        !st.config.requireConfirmation) = false →
      ∀ gw, ∃ s, (ensureBreakAfterFocus focusDurationMs afterTask gw
          now st).2 = some s ∧ s.type = .BREAK_NEEDED) ∧
    ((st.config.autoScheduleFocusBlocks && st.hasCalendarService &&
        !st.config.requireConfirmation) = true →
      (∃ s, (scheduleFocusBlock taskName none (.success eventId) now st).2 =
          some s ∧
        s.type = .AUTO_SCHEDULED ∧ s.calendarEventId = eventId ∧
        (scheduleFocusBlock taskName none (.success eventId)
            now st).1.autoScheduledEvents =
          (s.id, eventId) :: st.autoScheduledEvents) ∧
      (∃ s, (scheduleFocusBlock taskName none .failure now st).2 = some s ∧
        s.type = .FOCUS_BLOCK ∧ s.autoScheduled = false ∧
        s.calendarEventId = none ∧
        (scheduleFocusBlock taskName none .failure
            now st).1.autoScheduledEvents = st.autoScheduledEvents)) := by
  have hcB : checkForConflicts st.calendarEvents st.checkIns slotB.start
      slotB.stop = [] := by
    have h' := hslotB
    simp only [findNextAvailableSlot] at h'
    exact (findSlotLoop_some h').2.2.2.2.2
  refine ⟨fun hgate => ?_, fun hgate gw => ?_, fun hgate => ?_⟩
  · constructor
    · simp only [ensureBreakAfterFocus, hfresh, hslotB, hcB, List.isEmpty_nil,
        Bool.not_true]
      rw [if_neg (by decide), if_pos hgate]
      exact ⟨_, rfl, rfl, rfl, rfl⟩
    · simp only [ensureBreakAfterFocus, hfresh, hslotB, hcB, List.isEmpty_nil,
        Bool.not_true]
      rw [if_neg (by decide), if_pos hgate]
      exact ⟨_, rfl, rfl, rfl, rfl, rfl, rfl, rfl⟩
  · simp only [ensureBreakAfterFocus, hfresh, hslotB, hcB, List.isEmpty_nil,
      Bool.not_true]
    rw [if_neg (by decide), if_neg (by rw [hgate]; exact Bool.false_ne_true)]
    exact ⟨_, rfl, rfl⟩
  · constructor
    · simp only [scheduleFocusBlock, hslotF]
      rw [if_pos hgate]
      exact ⟨_, rfl, rfl, rfl, rfl⟩
    · simp only [scheduleFocusBlock, hslotF]
      rw [if_pos hgate]
      exact ⟨_, rfl, rfl, rfl, rfl, rfl⟩

/-- A planner state with the auto-schedule gate open (toggles on, calendar
service attached, confirmation off) for the C4 witness. -/
def sampleAutoState : PlannerState where
  config := { DEFAULT_CONFIG with
              autoScheduleBreaks := true
              autoScheduleFocusBlocks := true
              requireConfirmation := false }
  preferences := DEFAULT_PREFERENCES
  hasCalendarService := true

/-- Witness for C4 at a concrete input: a successful create at 10:00
rewrites the break suggestion to AUTO_SCHEDULED and records the mapping. -/
theorem autoScheduled_only_after_gateway_success_witness :
    ∃ s, (ensureBreakAfterFocus 5700000 none (.success (some "evt1")) 36000000
        sampleAutoState).2 = some s ∧
      s.type = .AUTO_SCHEDULED ∧ s.calendarEventId = some "evt1" ∧
      (ensureBreakAfterFocus 5700000 none (.success (some "evt1")) 36000000
          sampleAutoState).1.autoScheduledEvents =
        (s.id, some "evt1") :: sampleAutoState.autoScheduledEvents :=
  ((autoScheduled_only_after_gateway_success 5700000 none none 36000000
      sampleAutoState (some "evt1") (by decide)
      { start := 36000000, stop := 36900000, available := true } (by decide)
      { start := 36000000, stop := 39000000, available := true } (by decide)).1
    (by decide)).1

/-! ## Claim C5: the extended-focus break scenario -/

theorem roundUpTo5Minutes_ge {t : Nat} (ht : t % 60000 = 0) :
    t ≤ roundUpTo5Minutes t := by
  unfold roundUpTo5Minutes getMinutes
  have hm : t % 3600000 = 60000 * (t / 60000 % 60) := by
    have h60 : (3600000 : Nat) = 60000 * 60 := by norm_num
    rw [h60, Nat.mod_mul, ht, Nat.zero_add]
  have hdiv := Nat.div_add_mod (t / 60000 % 60 + 4) 5
  have hmod : (t / 60000 % 60 + 4) % 5 < 5 := Nat.mod_lt _ (by norm_num)
  have hle : t % 3600000 ≤ t := Nat.mod_le _ _
  omega

theorem le_dayFloor_add_hour {u w : Nat} (hw : getHours u < w) :
    u ≤ dayFloor u + w * 3600000 := by
  unfold getHours at hw
  unfold dayFloor
  have hmm : u % 86400000 = u % 3600000 + 3600000 * (u / 3600000 % 24) := by
    have h24 : (86400000 : Nat) = 3600000 * 24 := by norm_num
    rw [h24, Nat.mod_mul]
  have hlt : u % 3600000 < 3600000 := Nat.mod_lt _ (by norm_num)
  have hle : u % 86400000 ≤ u := Nat.mod_le _ _
  omega

/-- A slot found for a whole-minute earliest start begins at or after it. -/
theorem findNextAvailableSlot_start_ge {cfg : PlannerConfig}
    {events : List CalendarEvent} {checkIns : List CheckIn} {d t : Nat}
    {slot : TimeSlot} (ht : t % 60000 = 0)
    (h : findNextAvailableSlot cfg events checkIns d t = some slot) :
    t ≤ slot.start := by
  simp only [findNextAvailableSlot] at h
  have h3 := (findSlotLoop_some h).2.2.1
  have h1 : t ≤ roundUpTo5Minutes t := roundUpTo5Minutes_ge ht
  split_ifs at h3 with hcl
  · have h2 := @le_dayFloor_add_hour (roundUpTo5Minutes t)
      cfg.workingHours.start hcl
    omega
  · omega

/-- Below capacity, the idle-time policy either leaves the store alone or
appends one live focus-block suggestion. -/
theorem checkUnscheduledTasks_cases {now : Nat} {st : PlannerState}
    (hlen : st.suggestions.length < st.config.maxActiveSuggestions) :
    (checkUnscheduledTasks now st).suggestions = st.suggestions ∨
    ∃ fb, (checkUnscheduledTasks now st).suggestions = st.suggestions ++ [fb] ∧
      fb.type = .FOCUS_BLOCK ∧ fb.dismissed = false ∧
      fb.expiresAt = some (now + 2 * 60 * 60000) := by
  simp only [checkUnscheduledTasks, addSuggestion, trimSuggestions]
  repeat' split
  all_goals first
    | exact Or.inl rfl
    | exact Or.inr ⟨_, rfl, rfl, rfl, rfl⟩
    | (exfalso
       simp only [List.length_append, List.length_singleton] at *
       omega)

/-- The friction policy is a no-op without check-ins (and a positive
threshold). -/
theorem checkFrictionPatterns_noop {now : Nat} {stf : PlannerState}
    (h1 : stf.checkIns = []) (h2 : 1 ≤ stf.config.frictionThreshold) :
    checkFrictionPatterns now stf = stf := by
  simp only [checkFrictionPatterns, h1, List.filter_nil, List.length_nil]
  split_ifs
  all_goals first
    | rfl
    | (exfalso; omega)

/-- The idle-time policy is a no-op outside the OPEN state. -/
theorem checkUnscheduledTasks_noop {now : Nat} {stf : PlannerState}
    (h : stf.currentRhythmState ≠ .OPEN) :
    checkUnscheduledTasks now stf = stf := by
  simp only [checkUnscheduledTasks]
  rw [if_pos h]

/-- A full analysis pass right after the break was stored: with no
check-ins, no running focus session, and room in the store, the pass keeps
exactly that one BREAK_NEEDED suggestion (it can add at most an idle-time
focus block). -/
theorem analyze_after_break {gw : GatewayResult} {now : Nat}
    {stf : PlannerState} {s0 : PlannerSuggestion}
    (hsugg : stf.suggestions = [s0])
    (hck : stf.checkIns = [])
    (hlfs : stf.lastFocusStart = none)
    (hfr2 : 1 ≤ stf.config.frictionThreshold)
    (hmax2 : 2 ≤ stf.config.maxActiveSuggestions)
    (hs0d : s0.dismissed = false)
    (hs0e : s0.expiresAt = some (now + 30 * 60000))
    (hs0t : s0.type = .BREAK_NEEDED) :
    (analyzeAndSuggest gw now stf).suggestions.filter
      (fun x => x.type == SuggestionType.BREAK_NEEDED) = [s0] := by
  simp only [analyzeAndSuggest, analyzeBreakStep, hlfs]
  simp only [checkAnchorReminders, hck, List.filter_nil, List.foldl_nil]
  have hfb : (if stf.config.enableFrictionDetection = true then
      checkFrictionPatterns now stf else stf) = stf := by
    split_ifs with hen
    · exact checkFrictionPatterns_noop hck hfr2
    · rfl
  rw [hfb]
  have hlt1 : ¬(now + 30 * 60000 < now) := by omega
  have hlt2 : ¬(now + 2 * 60 * 60000 < now) := by omega
  rcases @checkUnscheduledTasks_cases now stf
      (by rw [hsugg]; simp only [List.length_singleton]; omega)
    with hun | ⟨fb, hun, hfbt, hfbd, hfbe⟩
  · rw [hun, hsugg]
    simp [cleanupSuggestions, hs0d, hs0e, hs0t, hlt1]
  · rw [hun, hsugg]
    simp [cleanupSuggestions, hs0d, hs0e, hs0t, hlt1, hfbt, hfbd, hfbe, hlt2]

/-- C5: entering FOCUS at a whole-minute instant T and leaving to OPEN at
T+95 minutes with `focusBreakThreshold = 90` (no check-ins, an empty store,
no calendar service, friction threshold at least one, capacity at least
two, and some slot available at T+95min) produces exactly one non-dismissed
BREAK_NEEDED suggestion; its priority is medium (95 <= 120), its payload
spans exactly `defaultBreakDuration` minutes, and it is anchored at the
slot the finder returns for earliest start T+95min, which begins at or
after T+95min. -/
theorem focus_break_scenario
    (st : PlannerState) (T : Nat) (trigger1 trigger2 : String)
    (gw1 gw2 : GatewayResult) (slot : TimeSlot)
    (hstate : st.currentRhythmState ≠ .FOCUS)
    (hsugg : st.suggestions = [])
    (hck : st.checkIns = [])
    (hsvc : st.hasCalendarService = false)
    (hthr : st.config.focusBreakThreshold = 90)
    (hfr : 1 ≤ st.config.frictionThreshold)
    (hmax : 2 ≤ st.config.maxActiveSuggestions)
    (hT : T % 60000 = 0)
    (hslot : findNextAvailableSlot st.config st.calendarEvents []
      st.config.defaultBreakDuration (T + 95 * 60000) = some slot) :
    ∃ s : PlannerSuggestion,
      ((onRhythmStateChange .OPEN trigger2 gw2 (T + 95 * 60000)
          (onRhythmStateChange .FOCUS trigger1 gw1 T st)).suggestions.filter
        fun x => x.type == SuggestionType.BREAK_NEEDED) = [s] ∧
      s.dismissed = false ∧ s.priority = .medium ∧
      s.type = .BREAK_NEEDED ∧
      (∃ a, s.action = some a ∧
        a.payload.start = some slot.start ∧ a.payload.stop = some slot.stop ∧
        a.payload.durationMinutes = some st.config.defaultBreakDuration) ∧
      slot.stop = slot.start + st.config.defaultBreakDuration * 60000 ∧
      T + 95 * 60000 ≤ slot.start := by
  obtain ⟨cfg, prefs, sugg, cks, cur, lfs, lft, svc, evs, ase, atr, nid⟩ := st
  dsimp only at hstate hsugg hck hsvc hthr hfr hmax hslot ⊢
  subst hsugg hck hsvc
  -- facts about the slot
  have hstop : slot.stop = slot.start + cfg.defaultBreakDuration * 60000 := by
    have h' := hslot
    simp only [findNextAvailableSlot] at h'
    exact (findSlotLoop_some h').2.1
  have hconf : checkForConflicts evs [] slot.start slot.stop = [] := by
    have h' := hslot
    simp only [findNextAvailableSlot] at h'
    exact (findSlotLoop_some h').2.2.2.2.2
  have hge : T + 95 * 60000 ≤ slot.start :=
    findNextAvailableSlot_start_ge (by omega) hslot
  -- step 1: entering FOCUS at T
  have hst1 : onRhythmStateChange .FOCUS trigger1 gw1 T
      ⟨cfg, prefs, [], [], cur, lfs, lft, false, evs, ase, atr, nid⟩ =
      ⟨cfg, prefs, [], [], .FOCUS, some T, extractFocusTask trigger1, false,
        evs, ase, atr, nid⟩ := by
    simp only [onRhythmStateChange]
    rw [if_neg (show ¬(RhythmState.FOCUS = RhythmState.REFLECTIVE ∧
      cur ≠ RhythmState.REFLECTIVE) from fun h => by cases h.1)]
    rw [if_neg (show ¬(cur = RhythmState.FOCUS ∧
      RhythmState.FOCUS ≠ RhythmState.FOCUS) from fun h => h.2 rfl)]
    rw [if_pos (show True ∧ cur ≠ RhythmState.FOCUS from ⟨trivial, hstate⟩)]
    simp only [analyzeAndSuggest, analyzeBreakStep]
    rw [if_neg (show ¬(True ∧ cfg.focusBreakThreshold * 60000 < T - T) from
      fun h => by omega)]
    simp only [checkAnchorReminders]
    simp only [List.filter_nil, List.foldl_nil]
    split_ifs with hen
    · rw [checkFrictionPatterns_noop rfl hfr,
        checkUnscheduledTasks_noop (fun h => by cases h)]
      rfl
    · rw [checkUnscheduledTasks_noop (fun h => by cases h)]
      rfl
  rw [hst1]
  -- step 2: leaving FOCUS to OPEN at T + 95 minutes
  simp only [onRhythmStateChange]
  rw [if_neg (show ¬(RhythmState.OPEN = RhythmState.REFLECTIVE ∧
    RhythmState.FOCUS ≠ RhythmState.REFLECTIVE) from fun h => by cases h.1)]
  rw [if_pos (show True ∧ RhythmState.OPEN ≠ RhythmState.FOCUS from
    ⟨trivial, by decide⟩)]
  rw [if_neg (show ¬(RhythmState.OPEN = RhythmState.FOCUS ∧
    RhythmState.FOCUS ≠ RhythmState.FOCUS) from fun h => by cases h.1)]
  try dsimp only
  rw [if_pos (show cfg.focusBreakThreshold * 60000 < T + 95 * 60000 - T from
    by rw [hthr]; omega)]
  simp only [ensureBreakAfterFocus, List.find?_nil]
  try dsimp only
  rw [hslot]
  try dsimp only
  rw [hconf]
  rw [if_neg (show ¬((!([] : List CalendarEvent).isEmpty) = true) from
    by decide)]
  rw [if_neg (show ¬((cfg.autoScheduleBreaks && false &&
    !cfg.requireConfirmation) = true) from by simp)]
  rw [if_neg (show ¬(T + 95 * 60000 - T > 120 * 60000) from by omega)]
  simp only [addSuggestion, List.find?_nil]
  try dsimp only
  rw [if_neg (show ¬(((none : Option PlannerSuggestion).isSome &&
    (SuggestionType.BREAK_NEEDED != SuggestionType.ANCHOR_REMINDER)) = true) from
    by decide)]
  simp only [trimSuggestions, List.nil_append, List.length_singleton]
  rw [if_neg (show ¬(1 > cfg.maxActiveSuggestions) from by omega)]
  exact ⟨_, analyze_after_break rfl rfl rfl hfr hmax rfl rfl rfl,
    rfl, rfl, rfl, ⟨_, rfl, rfl, rfl, rfl⟩, hstop, hge⟩



/-- Witness for C5 at a concrete input: enter FOCUS at 9:00, leave to OPEN
at 10:35 on a fresh default planner; the break is anchored at 10:35-10:50. -/
theorem focus_break_scenario_witness :
    ∃ s : PlannerSuggestion,
      ((onRhythmStateChange .OPEN "idle" .failure 38100000
          (onRhythmStateChange .FOCUS "Active focus beat: Writing" .failure
            32400000 (RhythmPlanner.init DEFAULT_CONFIG))).suggestions.filter
        fun x => x.type == SuggestionType.BREAK_NEEDED) = [s] ∧
      s.dismissed = false ∧ s.priority = .medium ∧
      s.type = .BREAK_NEEDED ∧
      (∃ a, s.action = some a ∧
        a.payload.start = some (38100000 : Nat) ∧
        a.payload.stop = some (39000000 : Nat) ∧
        a.payload.durationMinutes =
          some (RhythmPlanner.init DEFAULT_CONFIG).config.defaultBreakDuration) ∧
      (39000000 : Nat) = 38100000 +
        (RhythmPlanner.init DEFAULT_CONFIG).config.defaultBreakDuration * 60000 ∧
      32400000 + 95 * 60000 ≤ (38100000 : Nat) :=
  focus_break_scenario (RhythmPlanner.init DEFAULT_CONFIG) 32400000
    "Active focus beat: Writing" "idle" .failure .failure
    { start := 38100000, stop := 39000000, available := true }
    (by decide) rfl rfl rfl rfl (by decide) (by decide) (by decide) (by decide)

/-- The element-level predicate of `cleanupSuggestions`: not dismissed and
not expired at `now`.  A list all of whose members satisfy it passes the
expiry sweep unchanged. -/
def activeUnexpired (now : Nat) (s : PlannerSuggestion) : Bool :=
  !s.dismissed && (match s.expiresAt with
    | some e => !(decide (e < now))
    | none => true)

/-- `cleanupSuggestions` is exactly the filter by `activeUnexpired`. -/
theorem cleanupSuggestions_eq_filter (now : Nat) (l : List PlannerSuggestion) :
    cleanupSuggestions now l = l.filter (activeUnexpired now) := rfl

/-- The expiry sweep keeps a fully active, unexpired list unchanged. -/
theorem cleanupSuggestions_id {now : Nat} {l : List PlannerSuggestion}
    (h : ∀ s ∈ l, activeUnexpired now s = true) :
    cleanupSuggestions now l = l := by
  rw [cleanupSuggestions_eq_filter]
  exact List.filter_eq_self.2 h

/-- The capacity trim only drops elements, never invents them. -/
theorem mem_trimSuggestions {maxActive : Nat} {l : List PlannerSuggestion}
    {x : PlannerSuggestion} (hx : x ∈ trimSuggestions maxActive l) : x ∈ l := by
  unfold trimSuggestions at hx
  split at hx
  · exact ((List.perm_insertionSort _ l).mem_iff).1
      ((List.take_sublist _ _).mem hx)
  · exact hx

/-- Every element of an `addSuggestion` result is an old element or the
inserted suggestion. -/
theorem mem_addSuggestion {cfg : PlannerConfig} {s : PlannerSuggestion}
    {l : List PlannerSuggestion} {x : PlannerSuggestion}
    (hx : x ∈ addSuggestion cfg s l) : x ∈ l ∨ x = s := by
  simp only [addSuggestion] at hx
  split at hx
  · exact .inl hx
  · rcases List.mem_append.1 (mem_trimSuggestions hx) with h | h
    · exact .inl h
    · exact .inr (List.mem_singleton.1 h)

/-- Inserting into a list already at capacity keeps it exactly at
capacity: the insert is either blocked by the per-kind dedup or trimmed
straight back to `maxActiveSuggestions` entries. -/
theorem addSuggestion_length_preserved {cfg : PlannerConfig}
    {s : PlannerSuggestion} {l : List PlannerSuggestion}
    (h : l.length = cfg.maxActiveSuggestions) :
    (addSuggestion cfg s l).length = cfg.maxActiveSuggestions := by
  simp only [addSuggestion]
  split
  · exact h
  · unfold trimSuggestions
    rw [if_pos (by simp only [List.length_append, List.length_singleton]; omega)]
    have hsort : (trimSort (l ++ [s])).length = l.length + 1 := by
      have := (List.perm_insertionSort
        (fun a b => compareSuggestions a b ≤ 0) (l ++ [s])).length_eq
      unfold trimSort
      simp only [List.length_append, List.length_singleton] at this
      omega
    rw [List.length_take, hsort]
    omega

/-- The three possible outcomes of one `addSuggestion` call: blocked by a
live same-kind witness, appended below capacity, or trimmed to exactly the
capacity bound. -/
theorem addSuggestion_out (cfg : PlannerConfig) (s : PlannerSuggestion)
    (l : List PlannerSuggestion) :
    (addSuggestion cfg s l = l ∧
      ∃ w ∈ l, w.type = s.type ∧ w.dismissed = false) ∨
    (addSuggestion cfg s l = l ++ [s] ∧
      l.length + 1 ≤ cfg.maxActiveSuggestions) ∨
    (addSuggestion cfg s l).length = cfg.maxActiveSuggestions := by
  simp only [addSuggestion]
  split
  · rename_i hcond
    rw [Bool.and_eq_true] at hcond
    obtain ⟨w, hw⟩ := Option.isSome_iff_exists.1 hcond.1
    have hmem := List.mem_of_find?_eq_some hw
    have hpred := List.find?_some hw
    rw [Bool.and_eq_true, beq_iff_eq, Bool.not_eq_true'] at hpred
    exact .inl ⟨rfl, w, hmem, hpred.1, hpred.2⟩
  · unfold trimSuggestions
    by_cases hlen : (l ++ [s]).length > cfg.maxActiveSuggestions
    · rw [if_pos hlen]
      refine .inr (.inr ?_)
      have hsort : (trimSort (l ++ [s])).length = l.length + 1 := by
        have := (List.perm_insertionSort
          (fun a b => compareSuggestions a b ≤ 0) (l ++ [s])).length_eq
        unfold trimSort
        simp only [List.length_append, List.length_singleton] at this
        omega
      rw [List.length_take, hsort]
      simp only [List.length_append, List.length_singleton] at hlen
      omega
    · rw [if_neg hlen]
      refine .inr (.inl ⟨rfl, ?_⟩)
      simp only [List.length_append, List.length_singleton] at hlen
      omega

/-- The planner fields that no suggestion policy modifies: configuration,
cached inputs, rhythm bookkeeping, and the gateway connection flag. -/
def SameFrame (st r : PlannerState) : Prop :=
  r.config = st.config ∧ r.checkIns = st.checkIns ∧
  r.calendarEvents = st.calendarEvents ∧
  r.currentRhythmState = st.currentRhythmState ∧
  r.lastFocusStart = st.lastFocusStart ∧
  r.lastFocusTask = st.lastFocusTask ∧
  r.hasCalendarService = st.hasCalendarService

theorem SameFrame.refl (st : PlannerState) : SameFrame st st :=
  ⟨rfl, rfl, rfl, rfl, rfl, rfl, rfl⟩

theorem SameFrame.trans {a b c : PlannerState}
    (h1 : SameFrame a b) (h2 : SameFrame b c) : SameFrame a c := by
  obtain ⟨x1, x2, x3, x4, x5, x6, x7⟩ := h1
  obtain ⟨y1, y2, y3, y4, y5, y6, y7⟩ := h2
  exact ⟨y1.trans x1, y2.trans x2, y3.trans x3, y4.trans x4,
    y5.trans x5, y6.trans x6, y7.trans x7⟩

/-- An anchor reminder kept in the store of the idempotence
counterexample: live, far from expiry, navigation action carrying the
anchor id. -/
def idemAnchorRem (id : Nat) (anchor : String) (created : Nat) :
    PlannerSuggestion :=
  { id := id
    type := .ANCHOR_REMINDER
    priority := .medium
    title := "Anchor Starting Soon"
    description := "reminder"
    action := some { type := .navigate, payload := { anchorId := some anchor } }
    createdAt := created
    expiresAt := some 100000000 }

/-- A pending check-in of the idempotence counterexample. -/
def idemCheckIn (id : String) (slot : Nat) (isAnchor : Bool) : CheckIn :=
  { id := id, category := "Task", task := id, slot := slot,
    done := false, isAnchor := isAnchor }

/-- The idempotence counterexample state, read at clock 36000000 (10:00):
capacity 2, two live unexpired anchor reminders (for anchors A and B), one
upcoming anchor A inside the reminder lead time, and three overdue
check-ins that arm the friction policy. -/
def idemState : PlannerState :=
  { config := { DEFAULT_CONFIG with maxActiveSuggestions := 2 }
    preferences := DEFAULT_PREFERENCES
    suggestions := [idemAnchorRem 0 "A" 1000, idemAnchorRem 1 "B" 2000]
    checkIns := [idemCheckIn "A" 36600000 true, idemCheckIn "o1" 30000000 false,
      idemCheckIn "o2" 30000000 false, idemCheckIn "o3" 30000000 false]
    currentRhythmState := .OTHER
    nextId := 2 }

/-- A suggestion with a not-yet-passed expiry and no dismissal flag passes
`activeUnexpired`. -/
theorem activeUnexpired_of_le {now e : Nat} {s : PlannerSuggestion}
    (hd : s.dismissed = false) (he : s.expiresAt = some e) (hle : now ≤ e) :
    activeUnexpired now s = true := by
  unfold activeUnexpired
  rw [hd, he]
  simp only [Bool.not_false, Bool.true_and, Bool.not_eq_true',
    decide_eq_false_iff_not]
  omega

/-- Every suggestion of the store is live and unexpired at `now`. -/
def AllActive (now : Nat) (l : List PlannerSuggestion) : Prop :=
  ∀ s ∈ l, activeUnexpired now s = true

/-- Inserting a live, unexpired suggestion keeps the store fully live. -/
theorem AllActive.add {now : Nat} {cfg : PlannerConfig}
    {s : PlannerSuggestion} {l : List PlannerSuggestion}
    (hl : AllActive now l) (hs : activeUnexpired now s = true) :
    AllActive now (addSuggestion cfg s l) := by
  intro x hx
  rcases mem_addSuggestion hx with h | h
  · exact hl x h
  · rw [h]; exact hs

/-- A live stored suggestion of kind `ty` makes the per-kind lookup hit. -/
theorem find_kind_isSome {l : List PlannerSuggestion} {ty : SuggestionType}
    {w : PlannerSuggestion} (hw : w ∈ l) (hty : w.type = ty)
    (hd : w.dismissed = false) :
    (l.find? fun s => s.type == ty && !s.dismissed).isSome = true := by
  rw [List.find?_isSome]
  refine ⟨w, hw, ?_⟩
  rw [hty, hd]
  simp

/-- A live same-kind witness blocks a non-anchor insert entirely. -/
theorem addSuggestion_blocked {cfg : PlannerConfig} {s w : PlannerSuggestion}
    {l : List PlannerSuggestion} (hw : w ∈ l) (hty : w.type = s.type)
    (hd : w.dismissed = false) (hne : s.type ≠ .ANCHOR_REMINDER) :
    addSuggestion cfg s l = l := by
  simp only [addSuggestion]
  split
  · rfl
  · rename_i hc
    rw [Bool.and_eq_true] at hc
    exact absurd (And.intro (find_kind_isSome hw hty hd) (bne_iff_ne.2 hne)) hc

/-- Anchor reminders are exempt from the per-kind dedup: the insert always
reaches the capacity trim. -/
theorem addSuggestion_anchor {cfg : PlannerConfig} {s : PlannerSuggestion}
    {l : List PlannerSuggestion} (hty : s.type = .ANCHOR_REMINDER) :
    addSuggestion cfg s l =
      trimSuggestions cfg.maxActiveSuggestions (l ++ [s]) := by
  simp only [addSuggestion]
  split
  · rename_i hc
    rw [Bool.and_eq_true, hty] at hc
    exact absurd hc.2 (by simp)
  · rfl

/-- The capacity trim either keeps the list or cuts it to the bound. -/
theorem trimSuggestions_out (maxActive : Nat) (l : List PlannerSuggestion) :
    trimSuggestions maxActive l = l ∨
    ((trimSuggestions maxActive l).length = maxActive ∧
      maxActive ≤ l.length) := by
  unfold trimSuggestions
  split
  · rename_i hgt
    right
    have hsort : (trimSort l).length = l.length :=
      (List.perm_insertionSort _ l).length_eq
    constructor
    · rw [List.length_take, hsort]; omega
    · omega
  · left; rfl

/-- The upcoming-anchor selection of `checkAnchorReminders`. -/
def upcomingAnchorsOf (now : Nat) (st : PlannerState) : List CheckIn :=
  st.checkIns.filter fun c =>
    c.isAnchor && !c.done && sameDay c.slot now &&
      decide (now < c.slot) &&
      decide (c.slot ≤ now + st.config.anchorReminderLeadTime * 60000)

theorem checkAnchorReminders_eq (now : Nat) (st : PlannerState) :
    checkAnchorReminders now st =
      (upcomingAnchorsOf now st).foldl (anchorReminderStep now) st := rfl

/-- The overdue-today count of `checkFrictionPatterns`. -/
def overdueCountOf (now : Nat) (st : PlannerState) : Nat :=
  ((st.checkIns.filter fun c => sameDay c.slot now).filter fun c =>
    !c.done && decide (c.slot + 15 * 60000 < now)).length

/-- The upcoming-today selection of `checkUnscheduledTasks`. -/
def upcomingTodayOf (now : Nat) (st : PlannerState) : List CheckIn :=
  st.checkIns.filter fun c =>
    !c.done && sameDay c.slot now && decide (now < c.slot)

/-- The extended-focus trigger of `analyzeAndSuggest`. -/
def breakGuard (now : Nat) (st : PlannerState) : Prop :=
  ∃ f, st.lastFocusStart = some f ∧ st.currentRhythmState = .FOCUS ∧
    now - f > st.config.focusBreakThreshold * 60000

/-- The guard cascade of the idle-time policy. -/
def idleGuard (now : Nat) (st : PlannerState) : Prop :=
  st.currentRhythmState = .OPEN ∧
  ¬(getHours now < st.config.workingHours.start ∨
    getHours now ≥ st.config.workingHours.stop) ∧
  (upcomingTodayOf now st).length = 0

theorem upcomingAnchorsOf_frame {now : Nat} {st r : PlannerState}
    (h : SameFrame st r) :
    upcomingAnchorsOf now r = upcomingAnchorsOf now st := by
  unfold upcomingAnchorsOf
  rw [h.2.1, h.1]

theorem overdueCountOf_frame {now : Nat} {st r : PlannerState}
    (h : SameFrame st r) : overdueCountOf now r = overdueCountOf now st := by
  unfold overdueCountOf
  rw [h.2.1]

theorem upcomingTodayOf_frame {now : Nat} {st r : PlannerState}
    (h : SameFrame st r) :
    upcomingTodayOf now r = upcomingTodayOf now st := by
  unfold upcomingTodayOf
  rw [h.2.1]

theorem breakGuard_frame {now : Nat} {st r : PlannerState}
    (h : SameFrame st r) : breakGuard now r ↔ breakGuard now st := by
  unfold breakGuard
  rw [h.2.2.2.2.1, h.2.2.2.1, h.1]

theorem idleGuard_frame {now : Nat} {st r : PlannerState}
    (h : SameFrame st r) : idleGuard now r ↔ idleGuard now st := by
  unfold idleGuard
  rw [h.2.2.2.1, h.1, upcomingTodayOf_frame h]

/-- Outcome analysis of `ensureBreakAfterFocus`: the frame survives, and
the store is either returned untouched for one of three stable reasons
(live break witness, no slot, conflicted slot) or pushed through one
`addSuggestion` call with a fresh suggestion whose kind records whether
the auto-schedule path ran. -/
theorem ensureBreakAfterFocus_out (d : Nat) (task : Option String)
    (gw : GatewayResult) (now : Nat) (st : PlannerState) :
    SameFrame st (ensureBreakAfterFocus d task gw now st).1 ∧
    (((ensureBreakAfterFocus d task gw now st).1.suggestions = st.suggestions ∧
       ((∃ w ∈ st.suggestions, w.type = .BREAK_NEEDED ∧ w.dismissed = false) ∨
        findNextAvailableSlot st.config st.calendarEvents st.checkIns
          st.config.defaultBreakDuration now = none ∨
        (∃ slot, findNextAvailableSlot st.config st.calendarEvents st.checkIns
            st.config.defaultBreakDuration now = some slot ∧
          checkForConflicts st.calendarEvents st.checkIns
            slot.start slot.stop ≠ []))) ∨
     (∃ s slot, (ensureBreakAfterFocus d task gw now st).1.suggestions =
         addSuggestion st.config s st.suggestions ∧
       activeUnexpired now s = true ∧ s.dismissed = false ∧
       (st.suggestions.find? fun x =>
         x.type == SuggestionType.BREAK_NEEDED && !x.dismissed) = none ∧
       findNextAvailableSlot st.config st.calendarEvents st.checkIns
         st.config.defaultBreakDuration now = some slot ∧
       checkForConflicts st.calendarEvents st.checkIns
         slot.start slot.stop = [] ∧
       (s.type = .BREAK_NEEDED ∨ s.type = .AUTO_SCHEDULED) ∧
       (((st.config.autoScheduleBreaks && st.hasCalendarService &&
           !st.config.requireConfirmation) = true ∧ ∃ i, gw = .success i) ↔
         s.type = .AUTO_SCHEDULED))) := by
  unfold ensureBreakAfterFocus
  cases hfind : st.suggestions.find? fun x =>
      x.type == SuggestionType.BREAK_NEEDED && !x.dismissed with
  | some w =>
    dsimp only
    refine ⟨SameFrame.refl st, .inl ⟨rfl, .inl ?_⟩⟩
    have hm := List.mem_of_find?_eq_some hfind
    have hp := List.find?_some hfind
    rw [Bool.and_eq_true, beq_iff_eq, Bool.not_eq_true'] at hp
    exact ⟨w, hm, hp.1, hp.2⟩
  | none =>
    dsimp only
    cases hslot : findNextAvailableSlot st.config st.calendarEvents st.checkIns
        st.config.defaultBreakDuration now with
    | none =>
      dsimp only
      exact ⟨⟨rfl, rfl, rfl, rfl, rfl, rfl, rfl⟩, .inl ⟨rfl, .inr (.inl rfl)⟩⟩
    | some slot =>
      dsimp only
      split
      · rename_i hne
        have hconf : checkForConflicts st.calendarEvents st.checkIns
            slot.start slot.stop ≠ [] := by
          intro hnil
          rw [hnil] at hne
          simp at hne
        exact ⟨⟨rfl, rfl, rfl, rfl, rfl, rfl, rfl⟩,
          .inl ⟨rfl, .inr (.inr ⟨slot, rfl, hconf⟩)⟩⟩
      · rename_i hpos
        have hnil : checkForConflicts st.calendarEvents st.checkIns
            slot.start slot.stop = [] := by
          rcases hl : checkForConflicts st.calendarEvents st.checkIns
              slot.start slot.stop with _ | ⟨a, l2⟩
          · rfl
          · rw [hl] at hpos
            simp at hpos
        try dsimp only
        by_cases hauto : (st.config.autoScheduleBreaks && st.hasCalendarService
            && !st.config.requireConfirmation) = true
        · rw [if_pos hauto]
          cases gw with
          | success i =>
            dsimp only
            refine ⟨⟨rfl, rfl, rfl, rfl, rfl, rfl, rfl⟩,
              .inr ⟨_, slot, rfl, ?_, rfl, rfl, rfl, hnil, .inr rfl,
                ⟨fun _ => rfl, fun _ => ⟨hauto, ⟨i, rfl⟩⟩⟩⟩⟩
            exact activeUnexpired_of_le rfl rfl (by omega)
          | failure =>
            dsimp only
            refine ⟨⟨rfl, rfl, rfl, rfl, rfl, rfl, rfl⟩,
              .inr ⟨_, slot, rfl, ?_, rfl, rfl, rfl, hnil, .inl rfl,
                ⟨fun hx => absurd hx.2 (by rintro ⟨i, hi⟩; cases hi),
                 fun hx => by cases hx⟩⟩⟩
            exact activeUnexpired_of_le rfl rfl (by omega)
        · rw [if_neg hauto]
          dsimp only
          refine ⟨⟨rfl, rfl, rfl, rfl, rfl, rfl, rfl⟩,
            .inr ⟨_, slot, rfl, ?_, rfl, rfl, rfl, hnil, .inl rfl,
              ⟨fun hx => absurd hx.1 hauto, fun hx => by cases hx⟩⟩⟩
          exact activeUnexpired_of_le rfl rfl (by omega)

/-- Policy tracking for the extended-focus check: the frame survives, the
store stays live and unexpired, a full store stays full, and the store
either grew by appending (and then the pass-2 skip disjunction holds under
the trigger) or sits exactly at capacity. -/
theorem analyzeBreakStep_tracked (gw : GatewayResult) (now : Nat)
    (st : PlannerState) (hact : AllActive now st.suggestions) :
    SameFrame st (analyzeBreakStep gw now st) ∧
    AllActive now (analyzeBreakStep gw now st).suggestions ∧
    (st.suggestions.length = st.config.maxActiveSuggestions →
      (analyzeBreakStep gw now st).suggestions.length =
        st.config.maxActiveSuggestions) ∧
    ((∃ a, (analyzeBreakStep gw now st).suggestions = st.suggestions ++ a ∧
       (breakGuard now st →
        (∃ w ∈ (analyzeBreakStep gw now st).suggestions,
            w.type = .BREAK_NEEDED ∧ w.dismissed = false) ∨
        findNextAvailableSlot st.config st.calendarEvents st.checkIns
          st.config.defaultBreakDuration now = none ∨
        (∃ slot, findNextAvailableSlot st.config st.calendarEvents st.checkIns
            st.config.defaultBreakDuration now = some slot ∧
          checkForConflicts st.calendarEvents st.checkIns
            slot.start slot.stop ≠ []) ∨
        ((st.config.autoScheduleBreaks && st.hasCalendarService &&
            !st.config.requireConfirmation) = true ∧ (∃ i, gw = .success i) ∧
          ∃ w ∈ (analyzeBreakStep gw now st).suggestions,
            w.type = .AUTO_SCHEDULED ∧ w.dismissed = false))) ∨
      (analyzeBreakStep gw now st).suggestions.length =
        st.config.maxActiveSuggestions) := by
  unfold analyzeBreakStep
  cases hfs : st.lastFocusStart with
  | none =>
    refine ⟨SameFrame.refl st, hact, fun hx => hx,
      .inl ⟨[], (List.append_nil _).symm, fun hg => ?_⟩⟩
    obtain ⟨g, hgf, _⟩ := hg
    rw [hfs] at hgf
    cases hgf
  | some f =>
    dsimp only
    split
    · obtain ⟨Fout, Hout⟩ :=
        ensureBreakAfterFocus_out (now - f) st.lastFocusTask gw now st
      rcases Hout with ⟨heq, hreason⟩ |
        ⟨s, slot, heqs, hsact, hsd, hfnone, hfslot, hcnil, htys, hiff⟩
      · refine ⟨Fout, by rw [heq]; exact hact, by rw [heq]; exact fun hx => hx,
          .inl ⟨[], by rw [heq, List.append_nil], fun hg => ?_⟩⟩
        rcases hreason with ⟨w, hw, h1, h2⟩ | h | h
        · exact .inl ⟨w, by rw [heq]; exact hw, h1, h2⟩
        · exact .inr (.inl h)
        · exact .inr (.inr (.inl h))
      · refine ⟨Fout, by rw [heqs]; exact hact.add hsact,
          by rw [heqs]; exact fun hx => addSuggestion_length_preserved hx, ?_⟩
        rcases addSuggestion_out st.config s st.suggestions with
          ⟨hadd, w, hwm, hwty, hwd⟩ | ⟨hadd, _⟩ | hlen
        · refine .inl ⟨[], by rw [heqs, hadd, List.append_nil], fun hg => ?_⟩
          rcases htys with hbk | hau
          · exact .inl ⟨w, by rw [heqs, hadd]; exact hwm,
              by rw [hwty, hbk], hwd⟩
          · exact .inr (.inr (.inr ⟨(hiff.2 hau).1, (hiff.2 hau).2,
              w, by rw [heqs, hadd]; exact hwm, by rw [hwty, hau], hwd⟩))
        · refine .inl ⟨[s], by rw [heqs, hadd], fun hg => ?_⟩
          rcases htys with hbk | hau
          · refine .inl ⟨s, ?_, hbk, hsd⟩
            rw [heqs, hadd]
            exact List.mem_append_right _ (.head _)
          · refine .inr (.inr (.inr ⟨(hiff.2 hau).1, (hiff.2 hau).2,
              s, ?_, hau, hsd⟩))
            rw [heqs, hadd]
            exact List.mem_append_right _ (.head _)
        · exact .inr (by rw [heqs]; exact hlen)
    · rename_i hng
      refine ⟨SameFrame.refl st, hact, fun hx => hx,
        .inl ⟨[], (List.append_nil _).symm, fun hg => ?_⟩⟩
      obtain ⟨g, hgf, hfoc, hthr⟩ := hg
      rw [hfs] at hgf
      injection hgf with h2
      exact absurd ⟨hfoc, by rw [h2]; exact hthr⟩ hng

/-- Outcome of one anchor-reminder step for an upcoming anchor: either a
reminder with its anchor id already exists and nothing changes, or a fresh
reminder for it goes through `addSuggestion`. -/
theorem anchorReminderStep_out (now : Nat) (st : PlannerState) (c : CheckIn)
    (hc : now < c.slot) :
    SameFrame st (anchorReminderStep now st c) ∧
    (((anchorReminderStep now st c).suggestions = st.suggestions ∧
       ∃ w ∈ st.suggestions, w.type = .ANCHOR_REMINDER ∧
         anchorIdOf w = some c.id) ∨
     ∃ s, (anchorReminderStep now st c).suggestions =
         addSuggestion st.config s st.suggestions ∧
       activeUnexpired now s = true ∧ s.type = .ANCHOR_REMINDER ∧
       anchorIdOf s = some c.id) := by
  unfold anchorReminderStep
  split
  · rename_i hfind
    refine ⟨SameFrame.refl st, .inl ⟨rfl, ?_⟩⟩
    rw [List.find?_isSome] at hfind
    obtain ⟨w, hw, hp⟩ := hfind
    rw [Bool.and_eq_true, beq_iff_eq, beq_iff_eq] at hp
    exact ⟨w, hw, hp.1, hp.2⟩
  · dsimp only
    refine ⟨⟨rfl, rfl, rfl, rfl, rfl, rfl, rfl⟩, .inr ⟨_, rfl, ?_, rfl, rfl⟩⟩
    exact activeUnexpired_of_le rfl rfl (by omega)

/-- Policy tracking for the anchor-reminder fold over any anchor list whose
members are strictly in the future. -/
theorem anchorFold_tracked (now : Nat) (l : List CheckIn) (st : PlannerState)
    (hl : ∀ c ∈ l, now < c.slot) (hact : AllActive now st.suggestions) :
    SameFrame st (l.foldl (anchorReminderStep now) st) ∧
    AllActive now (l.foldl (anchorReminderStep now) st).suggestions ∧
    (st.suggestions.length = st.config.maxActiveSuggestions →
      (l.foldl (anchorReminderStep now) st).suggestions.length =
        st.config.maxActiveSuggestions) ∧
    ((∃ a, (l.foldl (anchorReminderStep now) st).suggestions =
        st.suggestions ++ a ∧
        ∀ c ∈ l, ∃ w ∈ (l.foldl (anchorReminderStep now) st).suggestions,
          w.type = .ANCHOR_REMINDER ∧ anchorIdOf w = some c.id) ∨
      (l.foldl (anchorReminderStep now) st).suggestions.length =
        st.config.maxActiveSuggestions) := by
  induction l generalizing st with
  | nil =>
    exact ⟨SameFrame.refl st, hact, fun hx => hx,
      .inl ⟨[], (List.append_nil _).symm, fun c hc => nomatch hc⟩⟩
  | cons c rest ih =>
    simp only [List.foldl_cons]
    obtain ⟨F1, H1⟩ := anchorReminderStep_out now st c (hl c (.head _))
    have hcfg : (anchorReminderStep now st c).config = st.config := F1.1
    rcases H1 with ⟨heq, w, hw, hwty, hwa⟩ | ⟨s, heqs, hsact, hsty, hsa⟩
    · obtain ⟨F2, A2, S2, D2⟩ := ih (anchorReminderStep now st c)
        (fun c2 hc2 => hl c2 (.tail _ hc2)) (by rw [heq]; exact hact)
      refine ⟨SameFrame.trans F1 F2, A2, ?_, ?_⟩
      · intro hx
        have h1 := S2 (by rw [heq, hcfg]; exact hx)
        rwa [hcfg] at h1
      · rcases D2 with ⟨a, hae, hwit⟩ | hmax
        · refine .inl ⟨a, by rw [hae, heq], ?_⟩
          intro c2 hc2
          cases hc2 with
          | head =>
            refine ⟨w, ?_, hwty, hwa⟩
            rw [hae]
            exact List.mem_append_left _ (by rw [heq]; exact hw)
          | tail _ h2 => exact hwit c2 h2
        · rw [hcfg] at hmax
          exact .inr hmax
    · have hALL : AllActive now (anchorReminderStep now st c).suggestions := by
        rw [heqs]
        exact hact.add hsact
      obtain ⟨F2, A2, S2, D2⟩ := ih (anchorReminderStep now st c)
        (fun c2 hc2 => hl c2 (.tail _ hc2)) hALL
      refine ⟨SameFrame.trans F1 F2, A2, ?_, ?_⟩
      · intro hx
        have h1 := S2 (by rw [heqs, hcfg]; exact addSuggestion_length_preserved hx)
        rwa [hcfg] at h1
      · rcases trimSuggestions_out st.config.maxActiveSuggestions
          (st.suggestions ++ [s]) with htr | ⟨htr, _⟩
        · have hstep : (anchorReminderStep now st c).suggestions =
              st.suggestions ++ [s] := by
            rw [heqs, addSuggestion_anchor hsty, htr]
          rcases D2 with ⟨a, hae, hwit⟩ | hmax
          · refine .inl ⟨[s] ++ a, by rw [hae, hstep, List.append_assoc], ?_⟩
            intro c2 hc2
            cases hc2 with
            | head =>
              refine ⟨s, ?_, hsty, hsa⟩
              rw [hae, hstep]
              exact List.mem_append_left _ (List.mem_append_right _ (.head _))
            | tail _ h2 => exact hwit c2 h2
          · rw [hcfg] at hmax
            exact .inr hmax
        · have hfull : (anchorReminderStep now st c).suggestions.length =
              (anchorReminderStep now st c).config.maxActiveSuggestions := by
            rw [heqs, addSuggestion_anchor hsty, hcfg]
            exact htr
          have h1 := S2 hfull
          rw [hcfg] at h1
          exact .inr h1

/-- Policy tracking for `checkAnchorReminders`. -/
theorem checkAnchorReminders_tracked (now : Nat) (st : PlannerState)
    (hact : AllActive now st.suggestions) :
    SameFrame st (checkAnchorReminders now st) ∧
    AllActive now (checkAnchorReminders now st).suggestions ∧
    (st.suggestions.length = st.config.maxActiveSuggestions →
      (checkAnchorReminders now st).suggestions.length =
        st.config.maxActiveSuggestions) ∧
    ((∃ a, (checkAnchorReminders now st).suggestions = st.suggestions ++ a ∧
        ∀ c ∈ upcomingAnchorsOf now st,
          ∃ w ∈ (checkAnchorReminders now st).suggestions,
            w.type = .ANCHOR_REMINDER ∧ anchorIdOf w = some c.id) ∨
      (checkAnchorReminders now st).suggestions.length =
        st.config.maxActiveSuggestions) := by
  rw [checkAnchorReminders_eq]
  refine anchorFold_tracked now (upcomingAnchorsOf now st) st ?_ hact
  intro c hc
  have h2 := (List.mem_filter.1 hc).2
  simp only [Bool.and_eq_true, decide_eq_true_eq] at h2
  exact h2.1.2

/-- With a reminder already stored for every upcoming anchor, the
anchor-reminder fold is the identity. -/
theorem anchorFold_skip (now : Nat) (l : List CheckIn) (r : PlannerState)
    (h : ∀ c ∈ l, ∃ w ∈ r.suggestions,
      w.type = .ANCHOR_REMINDER ∧ anchorIdOf w = some c.id) :
    l.foldl (anchorReminderStep now) r = r := by
  induction l with
  | nil => rfl
  | cons c rest ih =>
    simp only [List.foldl_cons]
    have hstep : anchorReminderStep now r c = r := by
      obtain ⟨w, hw, hty, ha⟩ := h c (.head _)
      have hfind : (r.suggestions.find? fun s =>
          s.type == SuggestionType.ANCHOR_REMINDER &&
            anchorIdOf s == some c.id).isSome = true := by
        rw [List.find?_isSome]
        refine ⟨w, hw, ?_⟩
        rw [hty, ha]
        simp
      unfold anchorReminderStep
      rw [if_pos hfind]
    rw [hstep]
    exact ih (fun c2 hc2 => h c2 (.tail _ hc2))

/-- With a reminder already stored for every upcoming anchor,
`checkAnchorReminders` is the identity. -/
theorem checkAnchorReminders_skip (now : Nat) (r : PlannerState)
    (h : ∀ c ∈ upcomingAnchorsOf now r, ∃ w ∈ r.suggestions,
      w.type = .ANCHOR_REMINDER ∧ anchorIdOf w = some c.id) :
    checkAnchorReminders now r = r := by
  rw [checkAnchorReminders_eq]
  exact anchorFold_skip now _ r h

/-- Outcome of `checkFrictionPatterns`: untouched store (with a live
friction witness whenever the overdue threshold is met) or one
`addSuggestion` push of a fresh friction warning. -/
theorem checkFrictionPatterns_out (now : Nat) (st : PlannerState) :
    SameFrame st (checkFrictionPatterns now st) ∧
    (((checkFrictionPatterns now st).suggestions = st.suggestions ∧
       (st.config.frictionThreshold ≤ overdueCountOf now st →
         ∃ w ∈ st.suggestions, w.type = .FRICTION_WARNING ∧
           w.dismissed = false)) ∨
     ∃ s, (checkFrictionPatterns now st).suggestions =
         addSuggestion st.config s st.suggestions ∧
       activeUnexpired now s = true ∧ s.dismissed = false ∧
       s.type = .FRICTION_WARNING) := by
  unfold checkFrictionPatterns
  dsimp only
  by_cases hth : ((st.checkIns.filter fun c => sameDay c.slot now).filter
      fun c => !c.done && decide (c.slot + 15 * 60000 < now)).length ≥
      st.config.frictionThreshold
  · rw [if_pos hth]
    by_cases hfind : (st.suggestions.find? fun s =>
        s.type == SuggestionType.FRICTION_WARNING && !s.dismissed).isSome = true
    · rw [if_pos hfind]
      refine ⟨SameFrame.refl st, .inl ⟨rfl, fun _ => ?_⟩⟩
      rw [List.find?_isSome] at hfind
      obtain ⟨w, hw, hp⟩ := hfind
      rw [Bool.and_eq_true, beq_iff_eq, Bool.not_eq_true'] at hp
      exact ⟨w, hw, hp.1, hp.2⟩
    · rw [if_neg hfind]
      dsimp only
      exact ⟨⟨rfl, rfl, rfl, rfl, rfl, rfl, rfl⟩,
        .inr ⟨_, rfl, activeUnexpired_of_le rfl rfl (by omega), rfl, rfl⟩⟩
  · rw [if_neg hth]
    exact ⟨SameFrame.refl st, .inl ⟨rfl, fun hx => absurd hx hth⟩⟩

/-- Policy tracking for `checkFrictionPatterns`. -/
theorem checkFrictionPatterns_tracked (now : Nat) (st : PlannerState)
    (hact : AllActive now st.suggestions) :
    SameFrame st (checkFrictionPatterns now st) ∧
    AllActive now (checkFrictionPatterns now st).suggestions ∧
    (st.suggestions.length = st.config.maxActiveSuggestions →
      (checkFrictionPatterns now st).suggestions.length =
        st.config.maxActiveSuggestions) ∧
    ((∃ a, (checkFrictionPatterns now st).suggestions = st.suggestions ++ a ∧
       (st.config.frictionThreshold ≤ overdueCountOf now st →
        ∃ w ∈ (checkFrictionPatterns now st).suggestions,
          w.type = .FRICTION_WARNING ∧ w.dismissed = false)) ∨
      (checkFrictionPatterns now st).suggestions.length =
        st.config.maxActiveSuggestions) := by
  obtain ⟨F1, H1⟩ := checkFrictionPatterns_out now st
  rcases H1 with ⟨heq, himp⟩ | ⟨s, heqs, hsact, hsd, hsty⟩
  · refine ⟨F1, by rw [heq]; exact hact, by rw [heq]; exact fun hx => hx,
      .inl ⟨[], by rw [heq, List.append_nil], fun hth => ?_⟩⟩
    obtain ⟨w, hw, h1, h2⟩ := himp hth
    exact ⟨w, by rw [heq]; exact hw, h1, h2⟩
  · refine ⟨F1, by rw [heqs]; exact hact.add hsact,
      by rw [heqs]; exact fun hx => addSuggestion_length_preserved hx, ?_⟩
    rcases addSuggestion_out st.config s st.suggestions with
      ⟨hadd, w, hwm, hwty, hwd⟩ | ⟨hadd, _⟩ | hlen
    · refine .inl ⟨[], by rw [heqs, hadd, List.append_nil], fun _ => ?_⟩
      exact ⟨w, by rw [heqs, hadd]; exact hwm, by rw [hwty, hsty], hwd⟩
    · refine .inl ⟨[s], by rw [heqs, hadd], fun _ => ?_⟩
      refine ⟨s, ?_, hsty, hsd⟩
      rw [heqs, hadd]
      exact List.mem_append_right _ (.head _)
    · exact .inr (by rw [heqs]; exact hlen)

/-- With a live friction witness stored whenever the overdue threshold is
met, `checkFrictionPatterns` is the identity. -/
theorem checkFrictionPatterns_skip (now : Nat) (r : PlannerState)
    (h : r.config.frictionThreshold ≤ overdueCountOf now r →
      ∃ w ∈ r.suggestions, w.type = .FRICTION_WARNING ∧
        w.dismissed = false) :
    checkFrictionPatterns now r = r := by
  unfold checkFrictionPatterns
  dsimp only
  by_cases hth : ((r.checkIns.filter fun c => sameDay c.slot now).filter
      fun c => !c.done && decide (c.slot + 15 * 60000 < now)).length ≥
      r.config.frictionThreshold
  · rw [if_pos hth]
    obtain ⟨w, hw, hty, hd⟩ := h hth
    rw [if_pos (find_kind_isSome hw hty hd)]
  · rw [if_neg hth]

/-- Outcome of `checkUnscheduledTasks`: untouched store (with a stable
reason under the idle guard) or one `addSuggestion` push of a fresh
focus-block proposal. -/
theorem checkUnscheduledTasks_out (now : Nat) (st : PlannerState) :
    SameFrame st (checkUnscheduledTasks now st) ∧
    (((checkUnscheduledTasks now st).suggestions = st.suggestions ∧
       (idleGuard now st →
         findNextAvailableSlot st.config st.calendarEvents st.checkIns
           st.config.defaultFocusBlockDuration now = none ∨
         ∃ w ∈ st.suggestions, w.type = .FOCUS_BLOCK ∧
           w.dismissed = false)) ∨
     ∃ s, (checkUnscheduledTasks now st).suggestions =
         addSuggestion st.config s st.suggestions ∧
       activeUnexpired now s = true ∧ s.dismissed = false ∧
       s.type = .FOCUS_BLOCK) := by
  unfold checkUnscheduledTasks
  by_cases hne : st.currentRhythmState ≠ RhythmState.OPEN
  · rw [if_pos hne]
    exact ⟨SameFrame.refl st, .inl ⟨rfl, fun hg => absurd hg.1 hne⟩⟩
  · rw [if_neg hne]
    dsimp only
    by_cases hhour : getHours now < st.config.workingHours.start ∨
        getHours now ≥ st.config.workingHours.stop
    · rw [if_pos hhour]
      exact ⟨SameFrame.refl st, .inl ⟨rfl, fun hg => absurd hhour hg.2.1⟩⟩
    · rw [if_neg hhour]
      try dsimp only
      by_cases hlen : (st.checkIns.filter fun c =>
          !c.done && sameDay c.slot now && decide (now < c.slot)).length = 0
      · rw [if_pos hlen]
        by_cases hfind : (st.suggestions.find? fun s =>
            s.type == SuggestionType.FOCUS_BLOCK && !s.dismissed).isSome = true
        · rw [if_pos hfind]
          refine ⟨SameFrame.refl st, .inl ⟨rfl, fun _ => .inr ?_⟩⟩
          rw [List.find?_isSome] at hfind
          obtain ⟨w, hw, hp⟩ := hfind
          rw [Bool.and_eq_true, beq_iff_eq, Bool.not_eq_true'] at hp
          exact ⟨w, hw, hp.1, hp.2⟩
        · rw [if_neg hfind]
          cases hslot : findNextAvailableSlot st.config st.calendarEvents
              st.checkIns st.config.defaultFocusBlockDuration now with
          | none =>
            dsimp only
            exact ⟨SameFrame.refl st, .inl ⟨rfl, fun _ => .inl rfl⟩⟩
          | some slot =>
            dsimp only
            exact ⟨⟨rfl, rfl, rfl, rfl, rfl, rfl, rfl⟩,
              .inr ⟨_, rfl, activeUnexpired_of_le rfl rfl (by omega),
                rfl, rfl⟩⟩
      · rw [if_neg hlen]
        exact ⟨SameFrame.refl st, .inl ⟨rfl, fun hg => absurd hg.2.2 hlen⟩⟩

/-- Policy tracking for `checkUnscheduledTasks`. -/
theorem checkUnscheduledTasks_tracked (now : Nat) (st : PlannerState)
    (hact : AllActive now st.suggestions) :
    SameFrame st (checkUnscheduledTasks now st) ∧
    AllActive now (checkUnscheduledTasks now st).suggestions ∧
    (st.suggestions.length = st.config.maxActiveSuggestions →
      (checkUnscheduledTasks now st).suggestions.length =
        st.config.maxActiveSuggestions) ∧
    ((∃ a, (checkUnscheduledTasks now st).suggestions =
        st.suggestions ++ a ∧
       (idleGuard now st →
        findNextAvailableSlot st.config st.calendarEvents st.checkIns
          st.config.defaultFocusBlockDuration now = none ∨
        ∃ w ∈ (checkUnscheduledTasks now st).suggestions,
          w.type = .FOCUS_BLOCK ∧ w.dismissed = false)) ∨
      (checkUnscheduledTasks now st).suggestions.length =
        st.config.maxActiveSuggestions) := by
  obtain ⟨F1, H1⟩ := checkUnscheduledTasks_out now st
  rcases H1 with ⟨heq, himp⟩ | ⟨s, heqs, hsact, hsd, hsty⟩
  · refine ⟨F1, by rw [heq]; exact hact, by rw [heq]; exact fun hx => hx,
      .inl ⟨[], by rw [heq, List.append_nil], fun hg => ?_⟩⟩
    rcases himp hg with hslot | ⟨w, hw, h1, h2⟩
    · exact .inl hslot
    · exact .inr ⟨w, by rw [heq]; exact hw, h1, h2⟩
  · refine ⟨F1, by rw [heqs]; exact hact.add hsact,
      by rw [heqs]; exact fun hx => addSuggestion_length_preserved hx, ?_⟩
    rcases addSuggestion_out st.config s st.suggestions with
      ⟨hadd, w, hwm, hwty, hwd⟩ | ⟨hadd, _⟩ | hlen
    · refine .inl ⟨[], by rw [heqs, hadd, List.append_nil],
        fun _ => .inr ?_⟩
      exact ⟨w, by rw [heqs, hadd]; exact hwm, by rw [hwty, hsty], hwd⟩
    · refine .inl ⟨[s], by rw [heqs, hadd], fun _ => .inr ?_⟩
      refine ⟨s, ?_, hsty, hsd⟩
      rw [heqs, hadd]
      exact List.mem_append_right _ (.head _)
    · exact .inr (by rw [heqs]; exact hlen)

/-- Under the idle guard, a missing slot or a live stored focus-block
witness makes `checkUnscheduledTasks` the identity. -/
theorem checkUnscheduledTasks_skip (now : Nat) (r : PlannerState)
    (h : idleGuard now r →
      findNextAvailableSlot r.config r.calendarEvents r.checkIns
        r.config.defaultFocusBlockDuration now = none ∨
      ∃ w ∈ r.suggestions, w.type = .FOCUS_BLOCK ∧ w.dismissed = false) :
    checkUnscheduledTasks now r = r := by
  unfold checkUnscheduledTasks
  by_cases hne : r.currentRhythmState ≠ RhythmState.OPEN
  · rw [if_pos hne]
  · rw [if_neg hne]
    dsimp only
    by_cases hhour : getHours now < r.config.workingHours.start ∨
        getHours now ≥ r.config.workingHours.stop
    · rw [if_pos hhour]
    · rw [if_neg hhour]
      try dsimp only
      by_cases hlen : (r.checkIns.filter fun c =>
          !c.done && sameDay c.slot now && decide (now < c.slot)).length = 0
      · rw [if_pos hlen]
        rcases h ⟨not_not.1 hne, hhour, hlen⟩ with hslot | ⟨w, hw, hty, hd⟩
        · by_cases hfind : (r.suggestions.find? fun s =>
              s.type == SuggestionType.FOCUS_BLOCK && !s.dismissed).isSome = true
          · rw [if_pos hfind]
          · rw [if_neg hfind]
            rw [hslot]
        · rw [if_pos (find_kind_isSome hw hty hd)]
      · rw [if_neg hlen]

/-- Pass-2 skip for the extended-focus check: under the recorded
guarantees the suggestion store is untouched and the frame survives. -/
theorem analyzeBreakStep_skip (gw : GatewayResult) (now : Nat)
    (r : PlannerState)
    (hE : breakGuard now r →
      (∃ w ∈ r.suggestions, w.type = .BREAK_NEEDED ∧ w.dismissed = false) ∨
      findNextAvailableSlot r.config r.calendarEvents r.checkIns
        r.config.defaultBreakDuration now = none ∨
      (∃ slot, findNextAvailableSlot r.config r.calendarEvents r.checkIns
          r.config.defaultBreakDuration now = some slot ∧
        checkForConflicts r.calendarEvents r.checkIns
          slot.start slot.stop ≠ []) ∨
      ((r.config.autoScheduleBreaks && r.hasCalendarService &&
          !r.config.requireConfirmation) = true ∧ (∃ i, gw = .success i) ∧
        ∃ w ∈ r.suggestions, w.type = .AUTO_SCHEDULED ∧
          w.dismissed = false)) :
    (analyzeBreakStep gw now r).suggestions = r.suggestions ∧
    SameFrame r (analyzeBreakStep gw now r) := by
  unfold analyzeBreakStep
  cases hfs : r.lastFocusStart with
  | none => exact ⟨rfl, SameFrame.refl r⟩
  | some f =>
    dsimp only
    split
    · rename_i hg
      obtain ⟨Fout, Hout⟩ :=
        ensureBreakAfterFocus_out (now - f) r.lastFocusTask gw now r
      rcases Hout with ⟨heq, _⟩ |
        ⟨s, slot, heqs, hsact, hsd, hfnone, hfslot, hcnil, htys, hiff⟩
      · exact ⟨heq, Fout⟩
      · rcases hE ⟨f, hfs, hg.1, hg.2⟩ with ⟨w, hw, hwty, hwd⟩ | hnone |
          ⟨slot2, hs2, hc2⟩ | ⟨hauto, hgws, w, hw, hwty, hwd⟩
        · exact absurd (find_kind_isSome hw hwty hwd)
            (by rw [hfnone]; simp)
        · rw [hnone] at hfslot
          cases hfslot
        · rw [hfslot] at hs2
          injection hs2 with hs2
          rw [← hs2] at hc2
          exact absurd hcnil hc2
        · have hsty : s.type = .AUTO_SCHEDULED := hiff.1 ⟨hauto, hgws⟩
          refine ⟨?_, Fout⟩
          rw [heqs]
          exact addSuggestion_blocked hw (by rw [hwty, hsty]) hwd
            (by rw [hsty]; intro hx; cases hx)
    · exact ⟨rfl, SameFrame.refl r⟩

/-- Policy tracking for the friction-detection gate of
`analyzeAndSuggest`. -/
theorem frictionGate_tracked (now : Nat) (st : PlannerState)
    (hact : AllActive now st.suggestions) :
    SameFrame st (if st.config.enableFrictionDetection then
      checkFrictionPatterns now st else st) ∧
    AllActive now (if st.config.enableFrictionDetection then
      checkFrictionPatterns now st else st).suggestions ∧
    (st.suggestions.length = st.config.maxActiveSuggestions →
      (if st.config.enableFrictionDetection then
        checkFrictionPatterns now st else st).suggestions.length =
        st.config.maxActiveSuggestions) ∧
    ((∃ a, (if st.config.enableFrictionDetection then
        checkFrictionPatterns now st else st).suggestions =
        st.suggestions ++ a ∧
       (st.config.enableFrictionDetection = true →
        st.config.frictionThreshold ≤ overdueCountOf now st →
        ∃ w ∈ (if st.config.enableFrictionDetection then
            checkFrictionPatterns now st else st).suggestions,
          w.type = .FRICTION_WARNING ∧ w.dismissed = false)) ∨
      (if st.config.enableFrictionDetection then
        checkFrictionPatterns now st else st).suggestions.length =
        st.config.maxActiveSuggestions) := by
  by_cases hen : st.config.enableFrictionDetection = true
  · rw [if_pos hen]
    obtain ⟨F, A, S, D⟩ := checkFrictionPatterns_tracked now st hact
    refine ⟨F, A, S, ?_⟩
    rcases D with ⟨a, hae, himp⟩ | hmax
    · exact .inl ⟨a, hae, fun _ => himp⟩
    · exact .inr hmax
  · rw [if_neg hen]
    exact ⟨SameFrame.refl st, hact, fun hx => hx,
      .inl ⟨[], (List.append_nil _).symm, fun hx => absurd hx hen⟩⟩

/-- Whole-pass tracking for `analyzeAndSuggest`: the frame survives, the
store stays live and unexpired, and either the pass only appended - with a
live witness then stored for every policy trigger - or the store ends
exactly at capacity. -/
theorem analyzeAndSuggest_tracked (gw : GatewayResult) (now : Nat)
    (st : PlannerState) (hact : AllActive now st.suggestions) :
    SameFrame st (analyzeAndSuggest gw now st) ∧
    AllActive now (analyzeAndSuggest gw now st).suggestions ∧
    ((∃ a, (analyzeAndSuggest gw now st).suggestions =
        st.suggestions ++ a ∧
       ((breakGuard now st →
         (∃ w ∈ (analyzeAndSuggest gw now st).suggestions,
             w.type = .BREAK_NEEDED ∧ w.dismissed = false) ∨
         findNextAvailableSlot st.config st.calendarEvents st.checkIns
           st.config.defaultBreakDuration now = none ∨
         (∃ slot, findNextAvailableSlot st.config st.calendarEvents
             st.checkIns st.config.defaultBreakDuration now = some slot ∧
           checkForConflicts st.calendarEvents st.checkIns
             slot.start slot.stop ≠ []) ∨
         ((st.config.autoScheduleBreaks && st.hasCalendarService &&
             !st.config.requireConfirmation) = true ∧
           (∃ i, gw = .success i) ∧
           ∃ w ∈ (analyzeAndSuggest gw now st).suggestions,
             w.type = .AUTO_SCHEDULED ∧ w.dismissed = false)) ∧
        (∀ c ∈ upcomingAnchorsOf now st,
          ∃ w ∈ (analyzeAndSuggest gw now st).suggestions,
            w.type = .ANCHOR_REMINDER ∧ anchorIdOf w = some c.id) ∧
        (st.config.enableFrictionDetection = true →
          st.config.frictionThreshold ≤ overdueCountOf now st →
          ∃ w ∈ (analyzeAndSuggest gw now st).suggestions,
            w.type = .FRICTION_WARNING ∧ w.dismissed = false) ∧
        (idleGuard now st →
          findNextAvailableSlot st.config st.calendarEvents st.checkIns
            st.config.defaultFocusBlockDuration now = none ∨
          ∃ w ∈ (analyzeAndSuggest gw now st).suggestions,
            w.type = .FOCUS_BLOCK ∧ w.dismissed = false))) ∨
      (analyzeAndSuggest gw now st).suggestions.length =
        st.config.maxActiveSuggestions) := by
  obtain ⟨F1, A1, S1, D1⟩ := analyzeBreakStep_tracked gw now st hact
  obtain ⟨F2, A2, S2, D2⟩ := checkAnchorReminders_tracked now (analyzeBreakStep gw now st) A1
  obtain ⟨F3, A3, S3, D3⟩ := frictionGate_tracked now (checkAnchorReminders now (analyzeBreakStep gw now st)) A2
  obtain ⟨F4, A4, S4, D4⟩ := checkUnscheduledTasks_tracked now (if (checkAnchorReminders now (analyzeBreakStep gw now st)).config.enableFrictionDetection then
      checkFrictionPatterns now (checkAnchorReminders now (analyzeBreakStep gw now st))
    else (checkAnchorReminders now (analyzeBreakStep gw now st))) A3
  have hc1 : (analyzeBreakStep gw now st).config = st.config := F1.1
  have hc2 : (checkAnchorReminders now (analyzeBreakStep gw now st)).config = (analyzeBreakStep gw now st).config := F2.1
  have hc3 : (if (checkAnchorReminders now (analyzeBreakStep gw now st)).config.enableFrictionDetection then
      checkFrictionPatterns now (checkAnchorReminders now (analyzeBreakStep gw now st))
    else (checkAnchorReminders now (analyzeBreakStep gw now st))).config = (checkAnchorReminders now (analyzeBreakStep gw now st)).config := F3.1
  have hcc : (if (checkAnchorReminders now (analyzeBreakStep gw now st)).config.enableFrictionDetection then
      checkFrictionPatterns now (checkAnchorReminders now (analyzeBreakStep gw now st))
    else (checkAnchorReminders now (analyzeBreakStep gw now st))).config.maxActiveSuggestions =
      st.config.maxActiveSuggestions := by
    rw [hc3, hc2, hc1]
  have hsugg : (analyzeAndSuggest gw now st).suggestions =
      cleanupSuggestions now (checkUnscheduledTasks now (if (checkAnchorReminders now (analyzeBreakStep gw now st)).config.enableFrictionDetection then
      checkFrictionPatterns now (checkAnchorReminders now (analyzeBreakStep gw now st))
    else (checkAnchorReminders now (analyzeBreakStep gw now st)))).suggestions := rfl
  have hclean : cleanupSuggestions now (checkUnscheduledTasks now (if (checkAnchorReminders now (analyzeBreakStep gw now st)).config.enableFrictionDetection then
      checkFrictionPatterns now (checkAnchorReminders now (analyzeBreakStep gw now st))
    else (checkAnchorReminders now (analyzeBreakStep gw now st)))).suggestions =
      (checkUnscheduledTasks now (if (checkAnchorReminders now (analyzeBreakStep gw now st)).config.enableFrictionDetection then
      checkFrictionPatterns now (checkAnchorReminders now (analyzeBreakStep gw now st))
    else (checkAnchorReminders now (analyzeBreakStep gw now st)))).suggestions := cleanupSuggestions_id A4
  have hs4 : (analyzeAndSuggest gw now st).suggestions =
      (checkUnscheduledTasks now (if (checkAnchorReminders now (analyzeBreakStep gw now st)).config.enableFrictionDetection then
      checkFrictionPatterns now (checkAnchorReminders now (analyzeBreakStep gw now st))
    else (checkAnchorReminders now (analyzeBreakStep gw now st)))).suggestions := hsugg.trans hclean
  have F14 : SameFrame st (checkUnscheduledTasks now (if (checkAnchorReminders now (analyzeBreakStep gw now st)).config.enableFrictionDetection then
      checkFrictionPatterns now (checkAnchorReminders now (analyzeBreakStep gw now st))
    else (checkAnchorReminders now (analyzeBreakStep gw now st)))) :=
    SameFrame.trans F1 (SameFrame.trans F2 (SameFrame.trans F3 F4))
  refine ⟨F14, by rw [hs4]; exact A4, ?_⟩
  rcases D1 with ⟨a1, he1, E1⟩ | M1
  · rcases D2 with ⟨a2, he2, E2⟩ | M2
    · rcases D3 with ⟨a3, he3, E3⟩ | M3
      · rcases D4 with ⟨a4, he4, E4⟩ | M4
        · -- all-append world
          have hmem4 : ∀ x, x ∈ (checkUnscheduledTasks now (if (checkAnchorReminders now (analyzeBreakStep gw now st)).config.enableFrictionDetection then
      checkFrictionPatterns now (checkAnchorReminders now (analyzeBreakStep gw now st))
    else (checkAnchorReminders now (analyzeBreakStep gw now st)))).suggestions →
              x ∈ (analyzeAndSuggest gw now st).suggestions := by
            intro x hx
            rw [hs4]
            exact hx
          have hmem3 : ∀ x, x ∈ (if (checkAnchorReminders now (analyzeBreakStep gw now st)).config.enableFrictionDetection then
      checkFrictionPatterns now (checkAnchorReminders now (analyzeBreakStep gw now st))
    else (checkAnchorReminders now (analyzeBreakStep gw now st))).suggestions →
              x ∈ (analyzeAndSuggest gw now st).suggestions := by
            intro x hx
            refine hmem4 x ?_
            rw [he4]
            exact List.mem_append_left _ hx
          have hmem2 : ∀ x, x ∈ (checkAnchorReminders now (analyzeBreakStep gw now st)).suggestions →
              x ∈ (analyzeAndSuggest gw now st).suggestions := by
            intro x hx
            refine hmem3 x ?_
            rw [he3]
            exact List.mem_append_left _ hx
          have hmem1 : ∀ x, x ∈ (analyzeBreakStep gw now st).suggestions →
              x ∈ (analyzeAndSuggest gw now st).suggestions := by
            intro x hx
            refine hmem2 x ?_
            rw [he2]
            exact List.mem_append_left _ hx
          refine .inl ⟨a1 ++ (a2 ++ (a3 ++ a4)), ?_, ?_, ?_, ?_, ?_⟩
          · rw [hs4, he4, he3, he2, he1]
            simp [List.append_assoc]
          · intro hg
            rcases E1 hg with ⟨w, hw, h1, h2⟩ | h | h |
              ⟨ha, hb, w, hw, h1, h2⟩
            · exact .inl ⟨w, hmem1 w hw, h1, h2⟩
            · exact .inr (.inl h)
            · exact .inr (.inr (.inl h))
            · exact .inr (.inr (.inr ⟨ha, hb, w, hmem1 w hw, h1, h2⟩))
          · intro c hc
            obtain ⟨w, hw, h1, h2⟩ := E2 c
              (by rw [upcomingAnchorsOf_frame F1]; exact hc)
            exact ⟨w, hmem2 w hw, h1, h2⟩
          · intro hen hth
            have hc21 : (checkAnchorReminders now (analyzeBreakStep gw now st)).config = st.config := hc2.trans hc1
            obtain ⟨w, hw, h1, h2⟩ := E3 (by rw [hc21]; exact hen)
              (by rw [hc21,
                overdueCountOf_frame (SameFrame.trans F1 F2)]; exact hth)
            exact ⟨w, hmem3 w hw, h1, h2⟩
          · intro hg
            have F13 : SameFrame st (if (checkAnchorReminders now (analyzeBreakStep gw now st)).config.enableFrictionDetection then
      checkFrictionPatterns now (checkAnchorReminders now (analyzeBreakStep gw now st))
    else (checkAnchorReminders now (analyzeBreakStep gw now st))) :=
              SameFrame.trans F1 (SameFrame.trans F2 F3)
            rcases E4 ((idleGuard_frame F13).2 hg) with hslot |
              ⟨w, hw, h1, h2⟩
            · left
              rw [F13.1, F13.2.1, F13.2.2.1] at hslot
              exact hslot
            · exact .inr ⟨w, hmem4 w hw, h1, h2⟩
        · right
          rw [hs4]
          exact M4.trans hcc
      · right
        have m4 := S4 (by rw [hc3]; exact M3)
        rw [hs4]
        exact m4.trans hcc
    · right
      have m3 := S3 (by rw [hc2]; exact M2)
      have m4 := S4 (by rw [hc3]; exact m3)
      rw [hs4]
      exact m4.trans hcc
  · right
    have m2 := S2 (by rw [hc1]; exact M1)
    have m3 := S3 (by rw [hc2]; exact m2)
    have m4 := S4 (by rw [hc3]; exact m3)
    rw [hs4]
    exact m4.trans hcc

/-- C8: idempotence of the analysis pass, amended with the conditions the
counterexample forces.  If every stored suggestion is live and unexpired
at the pass clock, and the pass ends strictly below the
`maxActiveSuggestions` capacity (so no eviction fired), then re-running
`analyzeAndSuggest` with unchanged inputs (same check-ins, rhythm state,
configuration, gateway outcome and clock) leaves the suggestion list of
the first pass exactly as it is. -/
theorem analysisPass_idempotent (gw : GatewayResult) (now : Nat)
    (st : PlannerState)
    (hact : ∀ s ∈ st.suggestions, activeUnexpired now s = true)
    (hcap : (analyzeAndSuggest gw now st).suggestions.length <
      st.config.maxActiveSuggestions) :
    (analyzeAndSuggest gw now (analyzeAndSuggest gw now st)).suggestions =
      (analyzeAndSuggest gw now st).suggestions := by
  obtain ⟨F, A, D⟩ := analyzeAndSuggest_tracked gw now st hact
  rcases D with ⟨a, hae, E1, E2, E3, E4⟩ | hmax
  · have hE1 : breakGuard now (analyzeAndSuggest gw now st) →
        (∃ w ∈ (analyzeAndSuggest gw now st).suggestions,
          w.type = .BREAK_NEEDED ∧ w.dismissed = false) ∨
        findNextAvailableSlot (analyzeAndSuggest gw now st).config (analyzeAndSuggest gw now st).calendarEvents (analyzeAndSuggest gw now st).checkIns
          (analyzeAndSuggest gw now st).config.defaultBreakDuration now = none ∨
        (∃ slot, findNextAvailableSlot (analyzeAndSuggest gw now st).config (analyzeAndSuggest gw now st).calendarEvents
            (analyzeAndSuggest gw now st).checkIns (analyzeAndSuggest gw now st).config.defaultBreakDuration now = some slot ∧
          checkForConflicts (analyzeAndSuggest gw now st).calendarEvents (analyzeAndSuggest gw now st).checkIns
            slot.start slot.stop ≠ []) ∨
        (((analyzeAndSuggest gw now st).config.autoScheduleBreaks && (analyzeAndSuggest gw now st).hasCalendarService &&
            !(analyzeAndSuggest gw now st).config.requireConfirmation) = true ∧
          (∃ i, gw = .success i) ∧
          ∃ w ∈ (analyzeAndSuggest gw now st).suggestions,
            w.type = .AUTO_SCHEDULED ∧ w.dismissed = false) := by
      intro hg
      rcases E1 ((breakGuard_frame F).1 hg) with ⟨w, hw, h1, h2⟩ | h |
        ⟨slot, hs, hc⟩ | ⟨ha, hb, w, hw, h1, h2⟩
      · exact .inl ⟨w, hw, h1, h2⟩
      · refine .inr (.inl ?_)
        rw [F.1, F.2.1, F.2.2.1]
        exact h
      · refine .inr (.inr (.inl ⟨slot, ?_, ?_⟩))
        · rw [F.1, F.2.1, F.2.2.1]
          exact hs
        · rw [F.2.1, F.2.2.1]
          exact hc
      · refine .inr (.inr (.inr ⟨?_, hb, w, hw, h1, h2⟩))
        rw [F.1, F.2.2.2.2.2.2]
        exact ha
    obtain ⟨hs1, Fr1⟩ := analyzeBreakStep_skip gw now (analyzeAndSuggest gw now st) hE1
    have Fr1s : SameFrame st (analyzeBreakStep gw now (analyzeAndSuggest gw now st)) := SameFrame.trans F Fr1
    have hanch : checkAnchorReminders now (analyzeBreakStep gw now (analyzeAndSuggest gw now st)) = (analyzeBreakStep gw now (analyzeAndSuggest gw now st)) := by
      apply checkAnchorReminders_skip
      intro c hc
      obtain ⟨w, hw, h1, h2⟩ := E2 c
        (by rw [← upcomingAnchorsOf_frame Fr1s]; exact hc)
      exact ⟨w, by rw [hs1]; exact hw, h1, h2⟩
    have hfr : (if (analyzeBreakStep gw now (analyzeAndSuggest gw now st)).config.enableFrictionDetection then
        checkFrictionPatterns now (analyzeBreakStep gw now (analyzeAndSuggest gw now st)) else (analyzeBreakStep gw now (analyzeAndSuggest gw now st))) = (analyzeBreakStep gw now (analyzeAndSuggest gw now st)) := by
      by_cases hen : (analyzeBreakStep gw now (analyzeAndSuggest gw now st)).config.enableFrictionDetection = true
      · rw [if_pos hen]
        apply checkFrictionPatterns_skip
        intro hth
        rw [Fr1s.1] at hen
        rw [Fr1s.1, overdueCountOf_frame Fr1s] at hth
        obtain ⟨w, hw, h1, h2⟩ := E3 hen hth
        exact ⟨w, by rw [hs1]; exact hw, h1, h2⟩
      · rw [if_neg hen]
    have hun : checkUnscheduledTasks now (analyzeBreakStep gw now (analyzeAndSuggest gw now st)) = (analyzeBreakStep gw now (analyzeAndSuggest gw now st)) := by
      apply checkUnscheduledTasks_skip
      intro hg
      rcases E4 ((idleGuard_frame Fr1s).1 hg) with hslot | ⟨w, hw, h1, h2⟩
      · left
        rw [Fr1s.1, Fr1s.2.1, Fr1s.2.2.1]
        exact hslot
      · exact .inr ⟨w, by rw [hs1]; exact hw, h1, h2⟩
    calc (analyzeAndSuggest gw now (analyzeAndSuggest gw now st)).suggestions
        = cleanupSuggestions now (checkUnscheduledTasks now
            (if (checkAnchorReminders now (analyzeBreakStep gw now (analyzeAndSuggest gw now st))).config.enableFrictionDetection then
              checkFrictionPatterns now (checkAnchorReminders now (analyzeBreakStep gw now (analyzeAndSuggest gw now st)))
            else checkAnchorReminders now (analyzeBreakStep gw now (analyzeAndSuggest gw now st)))).suggestions := rfl
      _ = (analyzeAndSuggest gw now st).suggestions := by
          rw [hanch, hfr, hun, hs1, cleanupSuggestions_id A]
  · exact absurd hmax (Nat.ne_of_lt hcap)

/-- Witness for the amended C8 theorem at a concrete input: on a fresh
default planner read at 10:00 the pass adds one focus-block proposal
(below capacity), and a second identical pass changes nothing. -/
theorem analysisPass_idempotent_witness :
    (∀ s ∈ (RhythmPlanner.init DEFAULT_CONFIG).suggestions,
      activeUnexpired 36000000 s = true) ∧
    (analyzeAndSuggest .failure 36000000
        (RhythmPlanner.init DEFAULT_CONFIG)).suggestions.length <
      (RhythmPlanner.init DEFAULT_CONFIG).config.maxActiveSuggestions ∧
    (analyzeAndSuggest .failure 36000000 (analyzeAndSuggest .failure 36000000
        (RhythmPlanner.init DEFAULT_CONFIG))).suggestions =
      (analyzeAndSuggest .failure 36000000
        (RhythmPlanner.init DEFAULT_CONFIG)).suggestions :=
  ⟨by decide, by decide,
    analysisPass_idempotent .failure 36000000
      (RhythmPlanner.init DEFAULT_CONFIG) (by decide) (by decide)⟩

/-- C8 (counterexample): the analysis pass is not idempotent.  In
`idemState` every stored suggestion is live and unexpired, yet running the
pass twice at the same clock with the same inputs produces a different
suggestion list than running it once: the first pass adds a friction
warning whose capacity trim evicts the anchor-A reminder, so the second
pass re-creates that reminder and the trim then evicts the anchor-B
reminder. -/
theorem analysisPass_not_idempotent :
    (∀ s ∈ idemState.suggestions, activeUnexpired 36000000 s = true) ∧
    (analyzeAndSuggest .failure 36000000
        (analyzeAndSuggest .failure 36000000 idemState)).suggestions ≠
      (analyzeAndSuggest .failure 36000000 idemState).suggestions := by
  decide

example : findNextAvailableSlot DEFAULT_CONFIG [] [] 15 32400000 =
    some { start := 32400000, stop := 33300000, available := true } := by decide

example :
    findNextAvailableSlot DEFAULT_CONFIG
      [{ summary := "standup", start := 36000000, stop := 37800000 }]
      [{ id := "c1", category := "General", task := "review", slot := 37800000,
         done := false }]
      15 36000000 =
    some { start := 39900000, stop := 40800000, available := true } := by decide

end DailyTracker
